import Mathlib

/-!
Verification of the short_story_demo time-arithmetic core.

Shallow embedding of the Python sources:
  * `src/spliter_export_video.py`  (namespace `Splitter`)
  * `src/draft_gen.py`             (namespace `DraftGen`)
  * `src/srt_generate.py`          (namespace `SrtGen`)
  * `src/data_models.py`           (namespace `DataModels`)

Modelling conventions:
  * Python strings are modelled as `List Char`; `str.split(sep)` is `splitOnChar`.
  * Python floats are modelled as exact rationals (`ℚ`); `int(x)` truncation
    toward zero is `pyInt`; float `%` (sign of divisor) is `pymod`.
  * File-system paths are opaque tokens (`Path := ℕ`) compared by equality,
    and media probing (`get_audio_duration`, reading an SRT file) is passed in
    as a function parameter.
  * A Python exception that is caught locally becomes an `Option`/default
    value exactly where the source catches it; an uncaught exception is a
    `none` that propagates.
-/

/-- Opaque file-path token (Python compares paths by string equality only). -/
abbrev MediaPath : Type := ℕ

/-- Python `int(x)` on a float: truncation toward zero, modelled on `ℚ`. -/
def pyInt (q : ℚ) : ℤ :=
  if 0 ≤ q then ⌊q⌋ else -⌊-q⌋

/-- Python float `%` (result carries the divisor's sign; for a positive
divisor this is `a - b * ⌊a / b⌋`). -/
def pymod (a b : ℚ) : ℚ := a - b * ⌊a / b⌋

/-- One step of IEEE-754 binary64 rounding (round to nearest, ties to
even), modelled on `ℚ`: the magnitude is scaled to a 53-bit significand at
the binary exponent `Int.log 2` of the value, rounded to an integer, and
scaled back.  Overflow and subnormal values lie far outside this code's
value range and are not modelled.  Python float arithmetic performs this
rounding after every inexact operation. -/
def fpRound (q : ℚ) : ℚ :=
  if q = 0 then 0
  else
    (if 0 ≤ q then 1 else -1) *
      (if |q| * 2 ^ (52 - Int.log 2 |q|) -
            (⌊|q| * 2 ^ (52 - Int.log 2 |q|)⌋ : ℚ) < 1 / 2
        then (⌊|q| * 2 ^ (52 - Int.log 2 |q|)⌋ : ℚ)
        else if 1 / 2 < |q| * 2 ^ (52 - Int.log 2 |q|) -
            (⌊|q| * 2 ^ (52 - Int.log 2 |q|)⌋ : ℚ)
          then (⌊|q| * 2 ^ (52 - Int.log 2 |q|)⌋ : ℚ) + 1
        else if ⌊|q| * 2 ^ (52 - Int.log 2 |q|)⌋ % 2 = 0
          then (⌊|q| * 2 ^ (52 - Int.log 2 |q|)⌋ : ℚ)
          else (⌊|q| * 2 ^ (52 - Int.log 2 |q|)⌋ : ℚ) + 1) *
      2 ^ (Int.log 2 |q| - 52)

/-- Python `str.split(c)` on the `List Char` model of strings.
Always returns a non-empty list of (possibly empty) parts. -/
def splitOnChar (c : Char) : List Char → List (List Char)
  | [] => [[]]
  | x :: xs =>
    match splitOnChar c xs with
    | [] => [[]]
    | y :: ys => if x = c then [] :: y :: ys else (x :: y) :: ys

/-- Value of a single decimal digit character. -/
def charDigit? (c : Char) : Option ℕ :=
  if c = '0' then some 0 else if c = '1' then some 1
  else if c = '2' then some 2 else if c = '3' then some 3
  else if c = '4' then some 4 else if c = '5' then some 5
  else if c = '6' then some 6 else if c = '7' then some 7
  else if c = '8' then some 8 else if c = '9' then some 9
  else none

/-- Big-endian digit list to number. -/
def digitsVal (l : List ℕ) : ℕ := l.foldl (fun a d => 10 * a + d) 0

/-- The digit values of a character list, `none` if some character is not
a decimal digit. -/
def digitsOfChars? : List Char → Option (List ℕ)
  | [] => some []
  | c :: r => do
    let d ← charDigit? c
    let ds ← digitsOfChars? r
    pure (d :: ds)

/-- Python `int(s)` restricted to all-digit strings: `none` models the
`ValueError` raised on an empty or non-numeric string. -/
def natOfChars? (l : List Char) : Option ℕ :=
  if l = [] then none else (digitsOfChars? l).map digitsVal

/-- Python `int(s)`: digits with an optional leading minus sign.
(The source never feeds `int` strings with whitespace or a plus sign,
so only these two shapes are modelled.) -/
def pyIntOfChars? (l : List Char) : Option ℤ :=
  match l with
  | '-' :: rest => (natOfChars? rest).map (fun n => -(n : ℤ))
  | _ => (natOfChars? l).map (fun n => (n : ℤ))

/-- Python `float(s)` restricted to the literal shapes `digits` and
`digits.digits` (the only fallback branch shapes reachable in this code). -/
def pyFloatOfChars? (l : List Char) : Option ℚ :=
  match splitOnChar '.' l with
  | [a] => (natOfChars? a).map (fun n => (n : ℚ))
  | [a, b] =>
    match natOfChars? a, natOfChars? b with
    | some n, some f => some ((n : ℚ) + (f : ℚ) / 10 ^ b.length)
    | _, _ => none
  | _ => none

/-- Decimal digit character of `d < 10` (and a junk character otherwise). -/
def digitChar : ℕ → Char
  | 0 => '0' | 1 => '1' | 2 => '2' | 3 => '3' | 4 => '4'
  | 5 => '5' | 6 => '6' | 7 => '7' | 8 => '8' | 9 => '9'
  | _ => '*'

/-- Python `repr` of a natural number, as a digit-character list. -/
def natRepr (n : ℕ) : List Char :=
  if n = 0 then ['0'] else ((Nat.digits 10 n).reverse.map digitChar)

/-- Python `f"{n:02}"` for a non-negative value. -/
def pad2 (n : ℕ) : List Char :=
  if n < 10 then '0' :: natRepr n else natRepr n

/-- Python `f"{n:03}"` for a non-negative value. -/
def pad3 (n : ℕ) : List Char :=
  if n < 10 then '0' :: '0' :: natRepr n
  else if n < 100 then '0' :: natRepr n
  else natRepr n

/-- One `{'start': 'HH:MM:SS,mmm', 'end': 'HH:MM:SS,mmm'}` video-span dict
(`src/data_models.py`, `StoryDialogue.video_segments` entries).
`endT` models the `'end'` key (`end` is a Lean keyword). -/
structure SpanStr where
  start : List Char
  endT : List Char
deriving DecidableEq, Repr

instance : Inhabited SpanStr := ⟨⟨[], []⟩⟩

/-- `src/data_models.py` `StoryDialogue`: one dialogue, one optional voice-over
audio file, one optional word-level SRT file, several video spans.
The `chinese`/`english` text fields are never read by the embedded
computations and are omitted. -/
structure StoryDialogue where
  index : ℕ
  video_segments : List SpanStr
  audio_path : Option MediaPath
  srt_path : Option MediaPath
deriving DecidableEq, Repr

instance : Inhabited StoryDialogue := ⟨⟨0, [], none, none⟩⟩

namespace Splitter

/-- `TARGET_MIN_DURATION` (`src/spliter_export_video.py` line 24). -/
def TARGET_MIN_DURATION : ℚ := 36

/-- `TARGET_MAX_DURATION` (`src/spliter_export_video.py` line 25). -/
def TARGET_MAX_DURATION : ℚ := 60

/-- `VIDEO_SPEED_FACTOR` (`src/spliter_export_video.py` line 28): a fixed
constant 1.5, with a comment saying it is kept equal to `MAX_SPEED_FACTOR`
of `src/draft_gen.py`. -/
def VIDEO_SPEED_FACTOR : ℚ := 3 / 2

/-- The `try` body of `VideoSplitter.parse_time_to_seconds`
(`src/spliter_export_video.py` lines 69-80) without the speed division:
`time_part, ms_part = time_str.split(',')`,
`h, m, s = map(int, time_part.split(':'))`, `ms = int(ms_part)`,
`h*3600 + m*60 + s + ms/1000.0`.  `none` models a raised exception. -/
def parse_time_core (time_str : List Char) : Option ℚ :=
  match splitOnChar ',' time_str with
  | [time_part, ms_part] =>
    match splitOnChar ':' time_part with
    | [hs, ms, ss] => do
      let h ← pyIntOfChars? hs
      let m ← pyIntOfChars? ms
      let s ← pyIntOfChars? ss
      let msv ← pyIntOfChars? ms_part
      pure (((h * 3600 + m * 60 + s : ℤ) : ℚ) + (msv : ℚ) / 1000)
    | _ => none
  | _ => none

/-- `VideoSplitter.parse_time_to_seconds` (`src/spliter_export_video.py`
lines 67-83): divides by `VIDEO_SPEED_FACTOR` when `apply_speed`, and the
`except` clause logs and returns `0.0` on any parse failure. -/
def parse_time_to_seconds (time_str : List Char) (apply_speed : Bool) : ℚ :=
  match parse_time_core time_str with
  | some t => if apply_speed then t / VIDEO_SPEED_FACTOR else t
  | none => 0

/-- One split-point dict produced by `calculate_split_points`. -/
structure SplitPoint where
  start_time : ℚ
  end_time : ℚ
  duration : ℚ
  dialogue_indices : List ℕ
deriving DecidableEq, Repr

/-- Loop state of `calculate_split_points`: the accumulated `split_points`,
`current_start` and `current_dialogues`. -/
structure SplitState where
  split_points : List SplitPoint
  current_start : ℚ
  current_dialogues : List ℕ
deriving DecidableEq, Repr

/-- The default `'00:00:00,000'` used by `.get('end', '00:00:00,000')`. -/
def zeroStamp : List Char := ['0', '0', ':', '0', '0', ':', '0', '0', ',', '0', '0', '0']

/-- Real-world end time of a dialogue as the splitter computes it: the last
video span's `'end'` string parsed with `apply_speed=True`
(`src/spliter_export_video.py` lines 100-103). -/
def dialogueEndSeconds (d : StoryDialogue) : ℚ :=
  parse_time_to_seconds ((d.video_segments.getLastD ⟨zeroStamp, zeroStamp⟩).endT) true

/-- `end` time of the previous dialogue used by the backtrack branch:
`dialogues[current_dialogues[-2]]`'s last span end, parsed with the speed
inversion (`src/spliter_export_video.py` lines 130-133); here
`current_dialogues[-2]` is the last element before the just-appended `i`. -/
def prevEndSeconds (dialogues : List StoryDialogue) (cur : List ℕ) : ℚ :=
  dialogueEndSeconds (dialogues.getD (cur.dropLast.getLastD 0) default)

/-- One iteration of the `for i, dialogue in enumerate(dialogues)` loop of
`VideoSplitter.calculate_split_points` (`src/spliter_export_video.py`
lines 94-145), for dialogue `d` at position `i`: below `TARGET_MIN_DURATION`
keep accumulating; inside the window emit and reset; above
`TARGET_MAX_DURATION` backtrack to the previous dialogue's end when the
accumulation holds more than one dialogue, else keep accumulating. -/
def splitStep (dialogues : List StoryDialogue) (i : ℕ) (d : StoryDialogue)
    (st : SplitState) : SplitState :=
  if d.video_segments = [] then st
  else if TARGET_MIN_DURATION ≤ dialogueEndSeconds d - st.current_start then
    if dialogueEndSeconds d - st.current_start ≤ TARGET_MAX_DURATION then
      ⟨st.split_points ++
          [⟨st.current_start, dialogueEndSeconds d,
            dialogueEndSeconds d - st.current_start, st.current_dialogues ++ [i]⟩],
        dialogueEndSeconds d, []⟩
    else if 1 < (st.current_dialogues ++ [i]).length then
      ⟨st.split_points ++
          [⟨st.current_start, prevEndSeconds dialogues (st.current_dialogues ++ [i]),
            prevEndSeconds dialogues (st.current_dialogues ++ [i]) - st.current_start,
            (st.current_dialogues ++ [i]).dropLast⟩],
        prevEndSeconds dialogues (st.current_dialogues ++ [i]), [i]⟩
    else
      ⟨st.split_points, st.current_start, st.current_dialogues ++ [i]⟩
  else
    ⟨st.split_points, st.current_start, st.current_dialogues ++ [i]⟩

/-- The enumerated loop of `calculate_split_points`, threading the state. -/
def splitLoop (dialogues : List StoryDialogue) :
    ℕ → List StoryDialogue → SplitState → SplitState
  | _, [], st => st
  | i, d :: rest, st => splitLoop dialogues (i + 1) rest (splitStep dialogues i d st)

/-- The trailing-chunk check of `calculate_split_points`
(`src/spliter_export_video.py` lines 148-166): a non-empty remaining
accumulation is emitted only when its dialogue has video segments and its
duration lies within `[TARGET_MIN_DURATION, TARGET_MAX_DURATION]`;
otherwise it is discarded. -/
def finishSplit (dialogues : List StoryDialogue) (st : SplitState) :
    List SplitPoint :=
  match st.current_dialogues.getLast? with
  | none => st.split_points
  | some lastIdx =>
    if (dialogues.getD lastIdx default).video_segments = [] then st.split_points
    else if TARGET_MIN_DURATION ≤
        dialogueEndSeconds (dialogues.getD lastIdx default) - st.current_start ∧
        dialogueEndSeconds (dialogues.getD lastIdx default) - st.current_start ≤
          TARGET_MAX_DURATION then
      st.split_points ++
        [⟨st.current_start, dialogueEndSeconds (dialogues.getD lastIdx default),
          dialogueEndSeconds (dialogues.getD lastIdx default) - st.current_start,
          st.current_dialogues⟩]
    else st.split_points

/-- `VideoSplitter.calculate_split_points` (`src/spliter_export_video.py`
lines 85-168): the main loop followed by the trailing-chunk check. -/
def calculate_split_points (dialogues : List StoryDialogue) : List SplitPoint :=
  finishSplit dialogues (splitLoop dialogues 0 dialogues ⟨[], 0, []⟩)

end Splitter

namespace SrtGen

/-- `JSONSubtitleGenerator._format_time` (`src/srt_generate.py` lines 90-95):
`h = int(seconds // 3600)`, `m = int((seconds % 3600) // 60)`,
`s = int(seconds % 60)`, `ms = int((seconds - int(seconds)) * 1000)`,
rendered as `f"{h:02}:{m:02}:{s:02},{ms:03}"`, with `seconds` an IEEE-754
binary64 float.  On non-negative doubles below `2^52`, `// 3600`,
`% 3600`, `// 60`, `% 60` and `seconds - int(seconds)` are exact float
operations (a float remainder with these divisors and the fractional part
of a double are representable, and the integer quotients are below
`2^52`), so they are modelled by exact rational arithmetic; the
multiplication of the fractional part by 1000 is in general inexact and
carries the binary64 rounding `fpRound` - the rounding whose downward
error the trailing `int()` then truncates away.
Negative inputs (which the transcriber never produces) would render with a
sign in Python; here the components are taken with `Int.toNat`. -/
def format_time (seconds : ℚ) : List Char :=
  let h : ℤ := ⌊seconds / 3600⌋
  let m : ℤ := ⌊pymod seconds 3600 / 60⌋
  let s : ℤ := pyInt (pymod seconds 60)
  let ms : ℤ := pyInt (fpRound ((seconds - (pyInt seconds : ℚ)) * 1000))
  pad2 h.toNat ++ ':' :: pad2 m.toNat ++ ':' :: pad2 s.toNat ++ ',' :: pad3 ms.toNat

end SrtGen

namespace DraftGen

/-- `SUBTITLE_DEBUG_MODE` (`src/draft_gen.py` line 10): hard-coded `True`. -/
def SUBTITLE_DEBUG_MODE : Bool := true

/-- `DEBUG_SUBTITLE_LIMIT` (`src/draft_gen.py` line 19). -/
def DEBUG_SUBTITLE_LIMIT : ℕ := 1

/-- `TARGET_DURATION_SECONDS` (`src/draft_gen.py` line 23). -/
def TARGET_DURATION_SECONDS : ℚ := 60

/-- `MAX_SPEED_FACTOR` (`src/draft_gen.py` line 26): 1.5 (the adjacent
comment still talks about 2.5x, the constant is 1.5). -/
def MAX_SPEED_FACTOR : ℚ := 3 / 2

/-- `calculate_speed_factor` (`src/draft_gen.py` lines 120-148):
`required_speed = original / TARGET_DURATION_SECONDS`,
`final_speed = max(min(required_speed, MAX_SPEED_FACTOR), 1.0)`,
with non-positive inputs mapped to `1.0`. -/
def calculate_speed_factor (original_duration_seconds : ℚ) : ℚ :=
  if original_duration_seconds ≤ 0 then 1
  else max (min (original_duration_seconds / TARGET_DURATION_SECONDS) MAX_SPEED_FACTOR) 1

/-- `main_duration = int(nested_duration / speed_factor)` with
`speed_factor = calculate_speed_factor(nested_duration / 1000000.0)`
(`src/draft_gen.py` lines 737-743): the outer composite duration in
microseconds. -/
def main_duration (nested_duration : ℤ) : ℤ :=
  pyInt ((nested_duration : ℚ) / calculate_speed_factor ((nested_duration : ℚ) / 1000000))

/-- `time_to_microseconds` (`src/draft_gen.py` lines 83-105), restricted to
string inputs (the int/float overload at line 85 is never reached from
`create_nested_draft_simple`, whose inputs are span dicts of strings).
`none` models an uncaught exception (the function has no `try`). -/
def time_to_microseconds (time_str : List Char) : Option ℤ :=
  let total? : Option ℚ :=
    if ',' ∈ time_str then
      match splitOnChar ',' time_str with
      | [time_part, ms_part] =>
        match splitOnChar ':' time_part with
        | [hs, ms, ss] => do
          let h ← pyIntOfChars? hs
          let m ← pyIntOfChars? ms
          let s ← pyIntOfChars? ss
          let msv ← pyIntOfChars? ms_part
          pure (((h * 3600 + m * 60 + s : ℤ) : ℚ) + (msv : ℚ) / 1000)
        | _ => do
          let t ← pyFloatOfChars? time_part
          let msv ← pyIntOfChars? ms_part
          pure (t + (msv : ℚ) / 1000)
      | _ => none
    else
      match splitOnChar ':' time_str with
      | [hs, ms, ss] => do
        let h ← pyIntOfChars? hs
        let m ← pyIntOfChars? ms
        let s ← pyFloatOfChars? ss
        pure (((h * 3600 + m * 60 : ℤ) : ℚ) + s)
      | _ => pyFloatOfChars? time_str
  total?.map (fun t => pyInt (t * 1000000))

/-- The `try` body of `DraftGenerator._srt_time_to_microseconds`
(`src/draft_gen.py` lines 526-530):
`time_part, milliseconds = srt_time.split(',')`,
`hours, minutes, seconds = map(int, time_part.split(':'))`,
`(hours*3600 + minutes*60 + seconds) * 1000000 + int(milliseconds) * 1000`.
`none` models a raised exception. -/
def srt_time_core (srt_time : List Char) : Option ℤ :=
  match splitOnChar ',' srt_time with
  | [time_part, milliseconds] =>
    match splitOnChar ':' time_part with
    | [hs, ms, ss] => do
      let hours ← pyIntOfChars? hs
      let minutes ← pyIntOfChars? ms
      let seconds ← pyIntOfChars? ss
      let msv ← pyIntOfChars? milliseconds
      pure ((hours * 3600 + minutes * 60 + seconds) * 1000000 + msv * 1000)
    | _ => none
  | _ => none

/-- `DraftGenerator._srt_time_to_microseconds` (`src/draft_gen.py` lines
524-533): the `except` clause logs the error and returns `0`. -/
def srt_time_to_microseconds (srt_time : List Char) : ℤ :=
  (srt_time_core srt_time).getD 0

/-- The punctuation characters removed by `_clean_subtitle_text`
(`src/draft_gen.py` line 540): the regex class
`[.,!?;:'"\-\(\)\[\]{}]`. -/
def punctuationChars : List Char :=
  ['.', ',', '!', '?', ';', ':', Char.ofNat 39, Char.ofNat 34, '-',
   '(', ')', '[', ']', Char.ofNat 123, Char.ofNat 125]

/-- Python regex `\s` characters (space, tab, newline, CR, FF, VT). -/
def pyIsSpace (c : Char) : Bool :=
  c = ' ' ∨ c = Char.ofNat 9 ∨ c = Char.ofNat 10 ∨ c = Char.ofNat 13 ∨
    c = Char.ofNat 12 ∨ c = Char.ofNat 11

/-- Worker for `re.sub(r'\s+', ' ', text)`: the flag records whether the
previous character belonged to a whitespace run already replaced by one
space. -/
def collapseAux : Bool → List Char → List Char
  | _, [] => []
  | inRun, c :: rest =>
    if pyIsSpace c then
      if inRun then collapseAux true rest
      else ' ' :: collapseAux true rest
    else c :: collapseAux false rest

/-- `re.sub(r'\s+', ' ', text)`: every maximal whitespace run becomes one
space. -/
def collapseWhitespace (l : List Char) : List Char :=
  collapseAux false l

/-- `str.strip()` on the whitespace characters. -/
def pyStrip (l : List Char) : List Char :=
  ((l.dropWhile pyIsSpace).reverse.dropWhile pyIsSpace).reverse

/-- `DraftGenerator._clean_subtitle_text` (`src/draft_gen.py` lines 535-549):
strip punctuation, collapse whitespace runs to a single space, trim. -/
def clean_subtitle_text (text : List Char) : List Char :=
  pyStrip (collapseWhitespace (text.filter (fun c => c ∉ punctuationChars)))

end DraftGen

namespace DraftGen

/-- One entry of the `segments_info` list built by the first loop of
`DraftGenerator.create_nested_draft_simple` (`src/draft_gen.py` lines
257-267).  The dict key `'audio_duration'` actually stores the
speed-adjusted video duration and is named `adjusted_duration` here; the
`'dialogue_obj'` reference is represented by the fields the later loops
read from it (`index`, `srt_path`). -/
structure SegInfo where
  target_start : ℚ
  adjusted_duration : ℚ
  source_start : ℚ
  source_duration : ℚ
  audio_path : MediaPath
  video_speed : ℚ
  dialogue_index : ℕ
  dialogue_srt_path : Option MediaPath
  video_seg_idx : ℕ
  total_video_segs : ℕ
deriving DecidableEq, Repr

/-- `end_seconds - start_seconds` of one span, both computed as
`time_to_microseconds(...) / 1000000.0` (`src/draft_gen.py` lines 236-238).
`none` models an uncaught parse exception. -/
def spanDuration? (seg : SpanStr) : Option ℚ := do
  let st ← time_to_microseconds seg.start
  let en ← time_to_microseconds seg.endT
  pure ((en : ℚ) / 1000000 - (st : ℚ) / 1000000)

/-- The first inner loop of `create_nested_draft_simple` (`src/draft_gen.py`
lines 234-238): durations of all spans of one dialogue, in order; `none`
propagates the first parse exception. -/
def spanDurations? : List SpanStr → Option (List ℚ)
  | [] => some []
  | s :: r => do
    let d ← spanDuration? s
    let ds ← spanDurations? r
    pure (d :: ds)

/-- The inner `for video_seg_idx, video_seg in enumerate(...)` loop of
`create_nested_draft_simple` (`src/draft_gen.py` lines 249-269): emits one
`SegInfo` per span and advances `current_time` by the adjusted duration. -/
def buildSpanInfos (video_speed : ℚ) (ap : MediaPath) (srt : Option MediaPath)
    (dIdx : ℕ) (total_segs : ℕ) :
    List SpanStr → ℕ → ℚ → Option (List SegInfo × ℚ)
  | [], _, t => some ([], t)
  | seg :: rest, k, t => do
    let ss ← time_to_microseconds seg.start
    let es ← time_to_microseconds seg.endT
    let source_start := (ss : ℚ) / 1000000
    let source_duration := (es : ℚ) / 1000000 - source_start
    let adjusted := source_duration / video_speed
    let (infos, t') ← buildSpanInfos video_speed ap srt dIdx total_segs rest (k + 1) (t + adjusted)
    pure (({ target_start := t, adjusted_duration := adjusted,
             source_start := source_start, source_duration := source_duration,
             audio_path := ap, video_speed := video_speed, dialogue_index := dIdx,
             dialogue_srt_path := srt, video_seg_idx := k,
             total_video_segs := total_segs } : SegInfo) :: infos, t')

/-- One iteration of the outer dialogue loop of `create_nested_draft_simple`
(`src/draft_gen.py` lines 222-269): skip when there is no voice-over, add
the `gap`, probe the audio duration (`audioDur`), sum the span durations,
skip when that sum is zero, otherwise compute
`video_speed = total / max(audio_duration, 0.1)` and emit the span infos. -/
def processDialogue (gap : ℚ) (audioDur : MediaPath → ℚ) (d : StoryDialogue)
    (t0 : ℚ) : Option (List SegInfo × ℚ) :=
  match d.audio_path with
  | none => some ([], t0)
  | some ap => do
    let t1 := t0 + gap
    let audio_duration := audioDur ap
    let durs ← spanDurations? d.video_segments
    let total_video_duration := durs.sum
    if total_video_duration = 0 then pure ([], t1)
    else
      let video_speed := total_video_duration / max audio_duration (1 / 10)
      buildSpanInfos video_speed ap d.srt_path d.index d.video_segments.length
        d.video_segments 0 t1

/-- The whole first phase of `create_nested_draft_simple`: fold
`processDialogue` over the story's dialogues starting from `current_time`. -/
def buildSegInfos (gap : ℚ) (audioDur : MediaPath → ℚ) :
    List StoryDialogue → ℚ → Option (List SegInfo × ℚ)
  | [], t => some ([], t)
  | d :: rest, t => do
    let (i1, t1) ← processDialogue gap audioDur d t
    let (i2, t2) ← buildSegInfos gap audioDur rest t1
    pure (i1 ++ i2, t2)

/-- `{"start": ..., "duration": ...}` time range in microseconds. -/
structure TimeRange where
  start : ℤ
  duration : ℤ
deriving DecidableEq, Repr

/-- `VideoMaterial` (`src/draft_gen.py` lines 156-163); the `path` string
`"##_draftpath_placeholder_...##/materials/<basename>"` is represented by
the source path token. -/
structure VideoMaterial where
  id : ℕ
  path : MediaPath
  duration : ℤ
deriving DecidableEq, Repr

/-- `AudioMaterial` (`src/draft_gen.py` lines 165-172), path as above. -/
structure AudioMaterial where
  id : ℕ
  path : MediaPath
  duration : ℤ
deriving DecidableEq, Repr

/-- `VideoSegment` (`src/draft_gen.py` lines 174-183); the constant
`clip`/`volume` fields are dropped. -/
structure VideoSegment where
  id : ℕ
  material_id : ℕ
  source_timerange : TimeRange
  target_timerange : TimeRange
  speed : ℚ
deriving DecidableEq, Repr

/-- `AudioSegment` (`src/draft_gen.py` lines 185-193). -/
structure AudioSegment where
  id : ℕ
  material_id : ℕ
  source_timerange : TimeRange
  target_timerange : TimeRange
  speed : ℚ
  volume : ℚ
deriving DecidableEq, Repr

/-- State of the second loop of `create_nested_draft_simple`
(`src/draft_gen.py` lines 274-368): `generate_uuid()` is modelled by a
fresh-counter, and `audio_path_to_material_id` by an association list in
insertion order. -/
structure Phase2State where
  counter : ℕ
  apm : List (MediaPath × ℕ)
  video_materials : List VideoMaterial
  audio_materials : List AudioMaterial
  video_segments : List VideoSegment
  audio_segments : List AudioSegment
deriving DecidableEq, Repr

/-- The empty starting state of the second loop. -/
def initPhase2 : Phase2State := ⟨0, [], [], [], [], []⟩

/-- One iteration of the `for info in segments_info` loop
(`src/draft_gen.py` lines 294-368): a fresh video material per span, audio
material dedup through `audio_path_to_material_id`, one video segment per
info, and an audio segment only when `video_seg_idx == 0`.
The hard-coded video material duration 44733333 is kept. -/
def phase2Step (video_path : MediaPath) (audioDur : MediaPath → ℚ)
    (st : Phase2State) (info : SegInfo) : Phase2State :=
  let video_id := st.counter
  let c1 := st.counter + 1
  let vmat : VideoMaterial := { id := video_id, path := video_path, duration := 44733333 }
  let found := st.apm.lookup info.audio_path
  let audio_id := match found with
    | some aid => aid
    | none => c1
  let c2 := match found with
    | some _ => c1
    | none => c1 + 1
  let apm' := match found with
    | some _ => st.apm
    | none => st.apm ++ [(info.audio_path, c1)]
  let amats' := match found with
    | some _ => st.audio_materials
    | none => st.audio_materials ++
        [({ id := c1, path := info.audio_path,
            duration := pyInt (audioDur info.audio_path * 1000000) } : AudioMaterial)]
  let vseg : VideoSegment :=
    { id := c2, material_id := video_id,
      source_timerange := { start := pyInt (info.source_start * 1000000),
                            duration := pyInt (info.source_duration * 1000000) },
      target_timerange := { start := pyInt (info.target_start * 1000000),
                            duration := pyInt (info.adjusted_duration * 1000000) },
      speed := info.video_speed }
  let c3 := c2 + 1
  if info.video_seg_idx = 0 then
    let full := audioDur info.audio_path
    let aseg : AudioSegment :=
      { id := c3, material_id := audio_id,
        source_timerange := { start := 0, duration := pyInt (full * 1000000) },
        target_timerange := { start := pyInt (info.target_start * 1000000),
                              duration := pyInt (full * 1000000) },
        speed := 1, volume := 1 }
    { counter := c3 + 1, apm := apm',
      video_materials := st.video_materials ++ [vmat],
      audio_materials := amats',
      video_segments := st.video_segments ++ [vseg],
      audio_segments := st.audio_segments ++ [aseg] }
  else
    { counter := c3, apm := apm',
      video_materials := st.video_materials ++ [vmat],
      audio_materials := amats',
      video_segments := st.video_segments ++ [vseg],
      audio_segments := st.audio_segments }

end DraftGen

namespace DraftGen

/-- One entry parsed out of an SRT file by `_load_srt_file`
(`src/draft_gen.py` lines 498-522): start text, end text, cue text. -/
structure SrtEntry where
  start : List Char
  endT : List Char
  text : List Char
deriving DecidableEq, Repr

/-- The parsed `content` JSON of a subtitle material template
(`src/draft_gen.py` lines 439-457): its `text` and, for each entry of
`styles`, the optional `range` value (`none` when the style dict has no
`'range'` key).  `json.loads`/`json.dumps` round-tripping is the identity
in this model, so the parse-failure `except` branch is unreachable. -/
structure ContentObj where
  text : List Char
  styles : List (Option (ℤ × ℤ))
deriving DecidableEq, Repr

/-- A generated subtitle material: a template copy with a fresh id and the
rewritten `content`. -/
structure SubtitleMaterial where
  id : ℕ
  content : ContentObj
deriving DecidableEq, Repr

/-- A generated subtitle segment (a template copy whose `id`,
`material_id`, `target_timerange` and `source_timerange` are overwritten,
`src/draft_gen.py` lines 467-486). -/
structure SubtitleSegment where
  id : ℕ
  material_id : ℕ
  target_timerange : TimeRange
  source_timerange : TimeRange
deriving DecidableEq, Repr

/-- The text-track template loaded from the draft template file
(`load_subtitle_templates_from_draft`, `src/draft_gen.py` lines 50-67):
only the presence of segment templates matters to the generated output. -/
structure TrackTemplate where
  segments : List Unit
deriving DecidableEq, Repr

/-- A generated subtitle track. -/
structure SubtitleTrack where
  id : ℕ
  segments : List SubtitleSegment
deriving DecidableEq, Repr

/-- The `for j, subtitle_entry in enumerate(srt_subtitles)` loop
(`src/draft_gen.py` lines 430-488) for one dialogue: clean each cue text,
drop cues that clean to empty, emit one material per accepted cue (text
replaced, every style that has a `range` set to `[0, len(clean_text)]`),
and - when the track template has a segment template - one segment with
`target_timerange = {start: audio_target_start + cue_start, duration:
cue_end - cue_start}` and `source_timerange = {start: 0, duration: ...}`. -/
def processEntries (tmpl : ContentObj) (hasSegTemplate : Bool)
    (audio_target_start : ℤ) :
    List SrtEntry → ℕ → List SubtitleMaterial × List SubtitleSegment × ℕ
  | [], c => ([], [], c)
  | e :: rest, c =>
    let ct := clean_subtitle_text e.text
    if ct = [] then processEntries tmpl hasSegTemplate audio_target_start rest c
    else
      let mat : SubtitleMaterial :=
        { id := c,
          content := { text := ct,
                       styles := tmpl.styles.map
                         (Option.map (fun _ => ((0 : ℤ), (ct.length : ℤ)))) } }
      if hasSegTemplate then
        let srt_start := srt_time_to_microseconds e.start
        let srt_duration := srt_time_to_microseconds e.endT - srt_start
        let seg : SubtitleSegment :=
          { id := c + 1, material_id := c,
            target_timerange := { start := audio_target_start + srt_start,
                                  duration := srt_duration },
            source_timerange := { start := 0, duration := srt_duration } }
        let (ms, sgs, c') := processEntries tmpl hasSegTemplate audio_target_start rest (c + 2)
        (mat :: ms, seg :: sgs, c')
      else
        let (ms, sgs, c') := processEntries tmpl hasSegTemplate audio_target_start rest (c + 1)
        (mat :: ms, sgs, c')

/-- The `for i, info in enumerate(segments_info[:process_count])` loop of
`_generate_subtitles` (`src/draft_gen.py` lines 410-490): only infos of a
dialogue's first video span are considered, only dialogues whose SRT file
is set, exists (`srtExists`) and parses to a non-empty entry list
(`loadSrt`) contribute; `audio_target_start = int(target_start * 1000000)`.
Only the first material template (`template_idx = 0`) is ever used. -/
def subtitleLoop (tmpls : List ContentObj) (tt : TrackTemplate)
    (srtExists : MediaPath → Bool) (loadSrt : MediaPath → List SrtEntry) :
    List SegInfo → ℕ → List SubtitleMaterial × List SubtitleSegment × ℕ
  | [], c => ([], [], c)
  | info :: rest, c =>
    if info.video_seg_idx ≠ 0 then subtitleLoop tmpls tt srtExists loadSrt rest c
    else
      match info.dialogue_srt_path with
      | none => subtitleLoop tmpls tt srtExists loadSrt rest c
      | some sp =>
        if ¬ srtExists sp then subtitleLoop tmpls tt srtExists loadSrt rest c
        else
          let entries := loadSrt sp
          if entries = [] then subtitleLoop tmpls tt srtExists loadSrt rest c
          else
            let audio_target_start := pyInt (info.target_start * 1000000)
            let tmpl := tmpls.headD ⟨[], []⟩
            let (ms, sgs, c') :=
              processEntries tmpl (tt.segments ≠ []) audio_target_start entries c
            let (ms2, sgs2, c'') := subtitleLoop tmpls tt srtExists loadSrt rest c'
            (ms ++ ms2, sgs ++ sgs2, c'')

/-- `DraftGenerator._generate_subtitles` (`src/draft_gen.py` lines 384-496):
with no material template or no track template it returns `([], [], [])`;
otherwise it processes `segments_info[:process_count]` where
`process_count = min(DEBUG_SUBTITLE_LIMIT, len(segments_info))` because
`SUBTITLE_DEBUG_MODE` is hard-coded `True`; the function returns the
materials, an always-empty segment list (line 496), and the track
(only when it received at least one segment). -/
def generate_subtitles (tmpls : List ContentObj) (track? : Option TrackTemplate)
    (srtExists : MediaPath → Bool) (loadSrt : MediaPath → List SrtEntry)
    (segments_info : List SegInfo) (c : ℕ) :
    List SubtitleMaterial × List SubtitleSegment × List SubtitleTrack :=
  match tmpls, track? with
  | [], _ => ([], [], [])
  | _, none => ([], [], [])
  | t0 :: trest, some tt =>
    let process_count :=
      if SUBTITLE_DEBUG_MODE then min DEBUG_SUBTITLE_LIMIT segments_info.length
      else segments_info.length
    let track_id := c
    let (ms, sgs, _) :=
      subtitleLoop (t0 :: trest) tt srtExists loadSrt (segments_info.take process_count) (c + 1)
    (ms, [], if sgs ≠ [] then [⟨track_id, sgs⟩] else [])

/-- The dict returned by `create_nested_draft_simple`
(`src/draft_gen.py` lines 373-382). -/
structure NestedDraft where
  duration : ℤ
  video_materials : List VideoMaterial
  audio_materials : List AudioMaterial
  video_segments : List VideoSegment
  audio_segments : List AudioSegment
  subtitle_materials : List SubtitleMaterial
  subtitle_segments : List SubtitleSegment
  subtitle_tracks : List SubtitleTrack
deriving DecidableEq, Repr

/-- `DraftGenerator.create_nested_draft_simple` (`src/draft_gen.py` lines
216-382): phase 1 builds `segments_info` and
`total_duration = int(current_time * 1000000)`, phase 2 folds
`phase2Step`, then `_generate_subtitles` runs on `segments_info`.
Parameters carry the generator configuration (`gap`, the subtitle templates
of `self.template_file`) and the probed environment (`audioDur`,
`srtExists`, `loadSrt`).  `none` models an uncaught exception while
parsing a span timestamp. -/
def create_nested_draft_simple (tmpls : List ContentObj)
    (track? : Option TrackTemplate) (gap : ℚ) (audioDur : MediaPath → ℚ)
    (srtExists : MediaPath → Bool) (loadSrt : MediaPath → List SrtEntry)
    (story : List StoryDialogue) (video_path : MediaPath) :
    Option NestedDraft := do
  let (segments_info, t) ← buildSegInfos gap audioDur story 0
  let total_duration := pyInt (t * 1000000)
  let st := segments_info.foldl (phase2Step video_path audioDur) initPhase2
  let (smats, ssegs, stracks) :=
    generate_subtitles tmpls track? srtExists loadSrt segments_info st.counter
  pure { duration := total_duration,
         video_materials := st.video_materials,
         audio_materials := st.audio_materials,
         video_segments := st.video_segments,
         audio_segments := st.audio_segments,
         subtitle_materials := smats,
         subtitle_segments := ssegs,
         subtitle_tracks := stracks }

end DraftGen

namespace DataModels

/-- The parameter / keyword names involved in the
`StoryContent(...)` call of `DraftGenerator.generate_from_file`. -/
inductive ParamName where
  | story_title
  | start_index
  | end_index
  | start_time
  | end_time
  | dialogue
deriving DecidableEq, Repr

/-- The parameters of `StoryContent.__init__`
(`src/data_models.py` lines 37-40): `story_title`, `start_index`,
`end_index`, `dialogue`, all required (no defaults). -/
def StoryContent_params : List ParamName :=
  [.story_title, .start_index, .end_index, .dialogue]

/-- The keywords `DraftGenerator.generate_from_file` passes to
`StoryContent` (`src/draft_gen.py` lines 680-685). -/
def generate_from_file_kwargs : List ParamName :=
  [.story_title, .start_time, .end_time, .dialogue]

/-- Python keyword binding for a call made purely with keyword arguments
and a parameter list without defaults: every supplied keyword must name a
parameter, and every parameter must be supplied.  A `False` result means
the call raises `TypeError` before the constructor body runs. -/
def kwargsBindOk (params kwargs : List ParamName) : Bool :=
  kwargs.all (fun k => params.contains k) && params.all (fun p => kwargs.contains p)

/-- The Python exceptions `generate_from_file` can raise before synthesis. -/
inductive PyError where
  | typeError
  | valueError
deriving DecidableEq, Repr

/-- The front of `DraftGenerator.generate_from_file` (`src/draft_gen.py`
lines 668-690), up to the call of `generate_from_story`: with a non-empty
JSON list it builds `StoryContent(story_title=..., start_time=...,
end_time=..., dialogue=...)` - which binds successfully only if
`kwargsBindOk` - and with any other shape it raises `ValueError`.
`Except.ok` stands for reaching the synthesis call. -/
def generate_from_file (srt_data : List α) : Except PyError Unit :=
  if 0 < srt_data.length then
    if kwargsBindOk StoryContent_params generate_from_file_kwargs then .ok ()
    else .error .typeError
  else .error .valueError

end DataModels

/-- `HH:MM:SS,mmm` timestamp literal built from its nine characters,
used for the concrete test inputs. -/
def stampChars (h1 h2 m1 m2 s1 s2 a b c : Char) : List Char :=
  [h1, h2, ':', m1, m2, ':', s1, s2, ',', a, b, c]

namespace Examples

/-- `'00:00:00,000'`. -/
def t0s : List Char := stampChars '0' '0' '0' '0' '0' '0' '0' '0' '0'

/-- `'00:00:00,001'`. -/
def t1ms : List Char := stampChars '0' '0' '0' '0' '0' '0' '0' '0' '1'

/-- `'00:00:00,003'`. -/
def t3ms : List Char := stampChars '0' '0' '0' '0' '0' '0' '0' '0' '3'

/-- `'00:00:00,007'`. -/
def t7ms : List Char := stampChars '0' '0' '0' '0' '0' '0' '0' '0' '7'

/-- `'00:00:00,500'`. -/
def t500ms : List Char := stampChars '0' '0' '0' '0' '0' '0' '5' '0' '0'

/-- `'00:00:01,000'`. -/
def t1s : List Char := stampChars '0' '0' '0' '0' '0' '1' '0' '0' '0'

/-- `'00:00:02,000'`. -/
def t2s : List Char := stampChars '0' '0' '0' '0' '0' '2' '0' '0' '0'

/-- `'00:00:30,000'`. -/
def t30s : List Char := stampChars '0' '0' '0' '0' '3' '0' '0' '0' '0'

/-- `'00:03:00,000'`. -/
def t180s : List Char := stampChars '0' '0' '0' '3' '0' '0' '0' '0' '0'

/-- Two dialogues ending (after the 1.5x speed inversion) at 20 s and
120 s: the first stays below `TARGET_MIN_DURATION`, the second overshoots
`TARGET_MAX_DURATION`, forcing the splitter's backtrack branch. -/
def backtrackStory : List StoryDialogue :=
  [⟨0, [⟨t0s, t30s⟩], none, none⟩,
   ⟨1, [⟨t30s, t180s⟩], none, none⟩]

/-- One dialogue with three video spans of 1 ms, 2 ms and 4 ms and a
0.1 s voice-over: every adjusted span duration has a fractional
microsecond part, so the per-segment `int()` truncations accumulate. -/
def truncStory : List StoryDialogue :=
  [⟨0, [⟨t0s, t1ms⟩, ⟨t1ms, t3ms⟩, ⟨t3ms, t7ms⟩], some 0, none⟩]

/-- Voice-over probe for `truncStory`: 0.1 s. -/
def truncAudioDur : MediaPath → ℚ := fun _ => 1 / 10

/-- One dialogue whose span is 30 s with a 30 s voice-over: the nested
timeline lasts 30 s, so `calculate_speed_factor` returns 1.0, while the
splitter still divides by the constant 1.5. -/
def speedStory : List StoryDialogue :=
  [⟨0, [⟨t0s, t30s⟩], some 7, none⟩]

/-- Voice-over probe for `speedStory`: 30 s. -/
def speedAudioDur : MediaPath → ℚ := fun _ => 30

/-- A subtitle material template with one range-bearing style. -/
def subtitleTmpl : DraftGen.ContentObj := ⟨['x'], [some (5, 7)]⟩

/-- A track template holding one segment template. -/
def subtitleTrackTmpl : DraftGen.TrackTemplate := ⟨[()]⟩

/-- Two dialogues, each with a voice-over and an SRT cue file whose single
cue has non-empty text. -/
def twoCueStory : List StoryDialogue :=
  [⟨0, [⟨t0s, t1s⟩], some 10, some 20⟩,
   ⟨1, [⟨t1s, t2s⟩], some 11, some 21⟩]

/-- Voice-over probe for `twoCueStory`: 1 s each. -/
def twoCueAudioDur : MediaPath → ℚ := fun _ => 1

/-- Cue files for `twoCueStory`: one cue each, texts `Hi` / `Yo`. -/
def twoCueLoadSrt : MediaPath → List DraftGen.SrtEntry := fun p =>
  if p = (20 : ℕ) then [⟨t0s, t500ms, ['H', 'i']⟩]
  else [⟨t0s, t500ms, ['Y', 'o']⟩]

/-- One dialogue with a single 1 s span and a 1 s voice-over: the
simplest fully placed dialogue (speed 1, no rounding). -/
def soloDialogue : StoryDialogue := ⟨0, [⟨t0s, t1s⟩], some 10, none⟩

/-- A story holding only `soloDialogue`. -/
def soloStory : List StoryDialogue := [soloDialogue]

/-- Voice-over probe for `soloStory`: 1 s. -/
def soloAudioDur : MediaPath → ℚ := fun _ => 1

/-- The single `segments_info` entry produced for `soloStory`. -/
def soloInfo : DraftGen.SegInfo :=
  { target_start := 0, adjusted_duration := 1, source_start := 0,
    source_duration := 1, audio_path := 10, video_speed := 1,
    dialogue_index := 0, dialogue_srt_path := none, video_seg_idx := 0,
    total_video_segs := 1 }

/-- The nested draft produced for `soloStory` with shared video path 5. -/
def soloTl : DraftGen.NestedDraft :=
  { duration := 1000000,
    video_materials := [⟨0, 5, 44733333⟩],
    audio_materials := [⟨1, 10, 1000000⟩],
    video_segments := [⟨2, 0, ⟨0, 1000000⟩, ⟨0, 1000000⟩, 1⟩],
    audio_segments := [⟨3, 1, ⟨0, 1000000⟩, ⟨0, 1000000⟩, 1, 1⟩],
    subtitle_materials := [], subtitle_segments := [], subtitle_tracks := [] }

/-- The spec's scenario D cue text `"Hello, world!!"`. -/
def helloWorldRaw : List Char :=
  ['H', 'e', 'l', 'l', 'o', ',', ' ', 'w', 'o', 'r', 'l', 'd', '!', '!']

/-- Its cleaned form `"Hello world"`. -/
def helloWorldClean : List Char :=
  ['H', 'e', 'l', 'l', 'o', ' ', 'w', 'o', 'r', 'l', 'd']

end Examples

/-! ### Specification predicates -/

namespace Splitter

/-- Every dialogue index of `p` precedes every dialogue index of `q`.
`Pairwise IdxLt` over a split-point list captures both disjointness of the
`dialogue_indices` and their non-decreasing order across the list. -/
def IdxLt (p q : SplitPoint) : Prop :=
  ∀ x ∈ p.dialogue_indices, ∀ y ∈ q.dialogue_indices, x < y

/-- Invariant of the `calculate_split_points` loop after the first `k`
dialogues: emitted points are strictly ordered and internally sorted,
their recorded `duration` equals `end_time - start_time`, and the
accumulating `current_dialogues` are sorted, below `k`, and above every
emitted index. -/
def SplitInv (st : SplitState) (k : ℕ) : Prop :=
  st.split_points.Pairwise IdxLt ∧
  (∀ p ∈ st.split_points, p.dialogue_indices.Pairwise (· < ·)) ∧
  (∀ p ∈ st.split_points, p.duration = p.end_time - p.start_time) ∧
  st.current_dialogues.Pairwise (· < ·) ∧
  (∀ y ∈ st.current_dialogues, y < k) ∧
  (∀ p ∈ st.split_points, ∀ x ∈ p.dialogue_indices, ∀ y ∈ st.current_dialogues, x < y) ∧
  (∀ p ∈ st.split_points, ∀ x ∈ p.dialogue_indices, x < k)

end Splitter

namespace DraftGen

/-- The target ranges of `infos` are contiguous and gap-free starting at
`t` (in exact seconds) and ending at `t'`: each entry's `target_start` is
the previous entry's `target_start` plus its `adjusted_duration`. -/
def Contig : ℚ → List SegInfo → ℚ → Prop
  | t, [], t' => t' = t
  | t, i :: rest, t' => i.target_start = t ∧ Contig (t + i.adjusted_duration) rest t' 

end DraftGen

/-! ### Evaluation lemmas for the concrete timestamps -/

namespace Examples

theorem parse_core_t0s : Splitter.parse_time_core t0s = some 0 := by
  simp [t0s, stampChars, Splitter.parse_time_core, splitOnChar, pyIntOfChars?,
    natOfChars?, charDigit?, digitsOfChars?, digitsVal]

theorem parse_core_t30s : Splitter.parse_time_core t30s = some 30 := by
  simp [t30s, stampChars, Splitter.parse_time_core, splitOnChar, pyIntOfChars?,
    natOfChars?, charDigit?, digitsOfChars?, digitsVal]

theorem parse_core_t180s : Splitter.parse_time_core t180s = some 180 := by
  simp [t180s, stampChars, Splitter.parse_time_core, splitOnChar, pyIntOfChars?,
    natOfChars?, charDigit?, digitsOfChars?, digitsVal]
  norm_num

theorem ttm_t0s : DraftGen.time_to_microseconds t0s = some 0 := by
  simp [t0s, stampChars, DraftGen.time_to_microseconds, splitOnChar, pyIntOfChars?,
    natOfChars?, charDigit?, digitsOfChars?, digitsVal, pyInt]

theorem ttm_t1ms : DraftGen.time_to_microseconds t1ms = some 1000 := by
  simp [t1ms, stampChars, DraftGen.time_to_microseconds, splitOnChar, pyIntOfChars?,
    natOfChars?, charDigit?, digitsOfChars?, digitsVal, pyInt]
  norm_num

theorem ttm_t3ms : DraftGen.time_to_microseconds t3ms = some 3000 := by
  simp [t3ms, stampChars, DraftGen.time_to_microseconds, splitOnChar, pyIntOfChars?,
    natOfChars?, charDigit?, digitsOfChars?, digitsVal, pyInt]
  norm_num

theorem ttm_t7ms : DraftGen.time_to_microseconds t7ms = some 7000 := by
  simp [t7ms, stampChars, DraftGen.time_to_microseconds, splitOnChar, pyIntOfChars?,
    natOfChars?, charDigit?, digitsOfChars?, digitsVal, pyInt]
  norm_num

theorem ttm_t1s : DraftGen.time_to_microseconds t1s = some 1000000 := by
  simp [t1s, stampChars, DraftGen.time_to_microseconds, splitOnChar, pyIntOfChars?,
    natOfChars?, charDigit?, digitsOfChars?, digitsVal, pyInt]

theorem ttm_t2s : DraftGen.time_to_microseconds t2s = some 2000000 := by
  simp [t2s, stampChars, DraftGen.time_to_microseconds, splitOnChar, pyIntOfChars?,
    natOfChars?, charDigit?, digitsOfChars?, digitsVal, pyInt]
  norm_num

theorem ttm_t30s : DraftGen.time_to_microseconds t30s = some 30000000 := by
  simp [t30s, stampChars, DraftGen.time_to_microseconds, splitOnChar, pyIntOfChars?,
    natOfChars?, charDigit?, digitsOfChars?, digitsVal, pyInt]
  norm_num

theorem stc_t0s : DraftGen.srt_time_core t0s = some 0 := by
  simp [t0s, stampChars, DraftGen.srt_time_core, splitOnChar, pyIntOfChars?,
    natOfChars?, charDigit?, digitsOfChars?, digitsVal]

theorem stc_t500ms : DraftGen.srt_time_core t500ms = some 500000 := by
  simp [t500ms, stampChars, DraftGen.srt_time_core, splitOnChar, pyIntOfChars?,
    natOfChars?, charDigit?, digitsOfChars?, digitsVal]

end Examples

/-! ### C3 - GlobalSpeedNormalizer -/

/-- C3 counterexample: the claim's scenario `nested_duration=180s,
max_speed=2.0 => speed 2.0, final duration 90s` is false on the code:
`MAX_SPEED_FACTOR` is hard-coded to 1.5 (there is no `max_speed`
parameter), so 180 s yields speed 1.5 and a final composite duration of
120 s, not 2.0 and 90 s. -/
theorem C3_counterexample :
    DraftGen.calculate_speed_factor 180 = 3 / 2 ∧ (3 / 2 : ℚ) ≠ 2 ∧
    DraftGen.main_duration 180000000 = 120000000 ∧ (120000000 : ℤ) ≠ 90000000 := by
  refine ⟨?_, by norm_num, ?_, by norm_num⟩
  · norm_num [DraftGen.calculate_speed_factor, DraftGen.TARGET_DURATION_SECONDS,
      DraftGen.MAX_SPEED_FACTOR]
  · norm_num [DraftGen.main_duration, DraftGen.calculate_speed_factor,
      DraftGen.TARGET_DURATION_SECONDS, DraftGen.MAX_SPEED_FACTOR, pyInt]

/-- C3 (amended): for every positive nested duration `d` (seconds),
`calculate_speed_factor d = clamp(d / 60, min 1, max MAX_SPEED_FACTOR)`
with the hard-coded ceiling `MAX_SPEED_FACTOR = 1.5` (not a 2.0
parameter): the result is always in `[1, 1.5]`, equals the required speed
`d / 60` exactly when that lies in `[1, 1.5]`, and saturates at either
bound; in particular 180 s gives speed 1.5 and composite duration
`main_duration = int(nested / speed) = 120000000 us` (120 s, exceeding the
60 s target). -/
theorem C3_speed_normalizer_clamp (d : ℚ) (hd : 0 < d) :
    1 ≤ DraftGen.calculate_speed_factor d ∧
    DraftGen.calculate_speed_factor d ≤ DraftGen.MAX_SPEED_FACTOR ∧
    (d / DraftGen.TARGET_DURATION_SECONDS ≤ 1 →
      DraftGen.calculate_speed_factor d = 1) ∧
    (1 ≤ d / DraftGen.TARGET_DURATION_SECONDS →
      d / DraftGen.TARGET_DURATION_SECONDS ≤ DraftGen.MAX_SPEED_FACTOR →
      DraftGen.calculate_speed_factor d = d / DraftGen.TARGET_DURATION_SECONDS) ∧
    (DraftGen.MAX_SPEED_FACTOR ≤ d / DraftGen.TARGET_DURATION_SECONDS →
      DraftGen.calculate_speed_factor d = DraftGen.MAX_SPEED_FACTOR) ∧
    DraftGen.calculate_speed_factor 180 = DraftGen.MAX_SPEED_FACTOR ∧
    DraftGen.main_duration 180000000 = 120000000 := by
  have hd' : ¬ d ≤ 0 := not_le.mpr hd
  have hM : (1 : ℚ) ≤ DraftGen.MAX_SPEED_FACTOR := by
    norm_num [DraftGen.MAX_SPEED_FACTOR]
  refine ⟨?_, ?_, ?_, ?_, ?_, ?_, ?_⟩
  · simp only [DraftGen.calculate_speed_factor, if_neg hd']
    exact le_max_right _ _
  · simp only [DraftGen.calculate_speed_factor, if_neg hd']
    exact max_le (min_le_right _ _) hM
  · intro h
    simp only [DraftGen.calculate_speed_factor, if_neg hd']
    exact max_eq_right (le_trans (min_le_left _ _) h)
  · intro h1 h2
    simp only [DraftGen.calculate_speed_factor, if_neg hd']
    rw [min_eq_left h2]
    exact max_eq_left h1
  · intro h
    simp only [DraftGen.calculate_speed_factor, if_neg hd']
    rw [min_eq_right h]
    exact max_eq_left hM
  · norm_num [DraftGen.calculate_speed_factor, DraftGen.TARGET_DURATION_SECONDS,
      DraftGen.MAX_SPEED_FACTOR]
  · norm_num [DraftGen.main_duration, DraftGen.calculate_speed_factor,
      DraftGen.TARGET_DURATION_SECONDS, DraftGen.MAX_SPEED_FACTOR, pyInt]

/-- C3 witness: the amended clamp law instantiated at `d = 180`. -/
theorem C3_witness :
    (0 : ℚ) < 180 ∧
    (1 ≤ DraftGen.calculate_speed_factor 180 ∧
     DraftGen.calculate_speed_factor 180 ≤ DraftGen.MAX_SPEED_FACTOR ∧
     ((180 : ℚ) / DraftGen.TARGET_DURATION_SECONDS ≤ 1 →
       DraftGen.calculate_speed_factor 180 = 1) ∧
     (1 ≤ (180 : ℚ) / DraftGen.TARGET_DURATION_SECONDS →
       (180 : ℚ) / DraftGen.TARGET_DURATION_SECONDS ≤ DraftGen.MAX_SPEED_FACTOR →
       DraftGen.calculate_speed_factor 180 = (180 : ℚ) / DraftGen.TARGET_DURATION_SECONDS) ∧
     (DraftGen.MAX_SPEED_FACTOR ≤ (180 : ℚ) / DraftGen.TARGET_DURATION_SECONDS →
       DraftGen.calculate_speed_factor 180 = DraftGen.MAX_SPEED_FACTOR) ∧
     DraftGen.calculate_speed_factor 180 = DraftGen.MAX_SPEED_FACTOR ∧
     DraftGen.main_duration 180000000 = 120000000) :=
  ⟨by norm_num, C3_speed_normalizer_clamp 180 (by norm_num)⟩

/-! ### C10 - generate_from_file TypeError -/

/-- C10 (confirmed): for every non-empty JSON list input,
`DraftGenerator.generate_from_file` raises `TypeError` before any
synthesis, because it calls `StoryContent(story_title=..., start_time=...,
end_time=..., dialogue=...)` while `StoryContent.__init__` accepts only
`story_title`, `start_index`, `end_index`, `dialogue`: the keyword binding
check fails. -/
theorem C10_generate_from_file_type_error {α : Type} (l : List α)
    (h : 0 < l.length) :
    DataModels.generate_from_file l = .error .typeError := by
  have hk : DataModels.kwargsBindOk DataModels.StoryContent_params
      DataModels.generate_from_file_kwargs = false := by decide
  simp [DataModels.generate_from_file, h, hk]

/-- C10 witness: the TypeError branch at the concrete input `[()]`. -/
theorem C10_witness :
    0 < ([()] : List Unit).length ∧
    DataModels.generate_from_file ([()] : List Unit) = .error .typeError :=
  ⟨by decide, C10_generate_from_file_type_error [()] (by decide)⟩

/-! ### C8 - malformed timestamps -/

/-- C8 counterexample: on the malformed input `"abc"` (no comma
structure), neither time parser fails with an error: both catch the
exception internally and silently return the value 0
(`_srt_time_to_microseconds` returns `0`, `parse_time_to_seconds` returns
`0.0`), so the owning dialogue is processed with time 0 rather than
aborted. -/
theorem C8_counterexample :
    DraftGen.srt_time_core ['a', 'b', 'c'] = none ∧
    DraftGen.srt_time_to_microseconds ['a', 'b', 'c'] = 0 ∧
    Splitter.parse_time_core ['a', 'b', 'c'] = none ∧
    Splitter.parse_time_to_seconds ['a', 'b', 'c'] true = 0 := by
  refine ⟨?_, ?_, ?_, ?_⟩ <;>
    simp [DraftGen.srt_time_core, DraftGen.srt_time_to_microseconds,
      Splitter.parse_time_core, Splitter.parse_time_to_seconds, splitOnChar]

/-- C8 (amended): when the comma/colon structure of the input does not
match `HH:MM:SS,mmm` (or a component is non-numeric), the parse cores
signal the exception (`none`), but the public functions catch it, log,
and silently return 0 - `_srt_time_to_microseconds` returns `0` us and
`parse_time_to_seconds` returns `0.0` s - so processing of the owning
dialogue continues with the zero value instead of aborting. -/
theorem C8_malformed_returns_zero (s : List Char) :
    (DraftGen.srt_time_core s = none → DraftGen.srt_time_to_microseconds s = 0) ∧
    (Splitter.parse_time_core s = none →
      ∀ b : Bool, Splitter.parse_time_to_seconds s b = 0) := by
  constructor
  · intro h
    simp [DraftGen.srt_time_to_microseconds, h]
  · intro h b
    simp [Splitter.parse_time_to_seconds, h]

/-- C8 witness: the amended behaviour at the concrete malformed input
`"abc"`. -/
theorem C8_witness :
    DraftGen.srt_time_to_microseconds ['a', 'b', 'c'] = 0 ∧
    Splitter.parse_time_to_seconds ['a', 'b', 'c'] true = 0 :=
  ⟨(C8_malformed_returns_zero ['a', 'b', 'c']).1
      (by simp [DraftGen.srt_time_core, splitOnChar]),
   (C8_malformed_returns_zero ['a', 'b', 'c']).2
      (by simp [Splitter.parse_time_core, splitOnChar]) true⟩

/-! ### C2 - which speed factor the splitter inverts -/

/-- C2 counterexample: for a story whose nested timeline lasts 30 s the
GlobalSpeedNormalizer computes `calculate_speed_factor(30) = 1.0`, yet the
splitter turns the dialogue's `'00:00:30,000'` end stamp into
`30 / 1.5 = 20 s`, not `30 / 1.0 = 30 s`: the divisor is the fixed
constant `VIDEO_SPEED_FACTOR`, not the factor actually computed for the
story. -/
theorem C2_counterexample :
    (DraftGen.create_nested_draft_simple [] none 0 Examples.speedAudioDur
        (fun _ => false) (fun _ => []) Examples.speedStory 5).map
      (fun tl => tl.duration) = some 30000000 ∧
    DraftGen.calculate_speed_factor ((30000000 : ℚ) / 1000000) = 1 ∧
    Splitter.parse_time_to_seconds Examples.t30s true = 20 ∧
    Splitter.parse_time_to_seconds Examples.t30s false /
      DraftGen.calculate_speed_factor ((30000000 : ℚ) / 1000000) = 30 ∧
    (20 : ℚ) ≠ 30 := by
  refine ⟨?_, ?_, ?_, ?_, by norm_num⟩
  · norm_num [DraftGen.create_nested_draft_simple, DraftGen.buildSegInfos,
      DraftGen.processDialogue, DraftGen.spanDurations?, DraftGen.spanDuration?,
      DraftGen.buildSpanInfos, Examples.speedStory, Examples.speedAudioDur,
      Examples.ttm_t0s, Examples.ttm_t30s, DraftGen.generate_subtitles,
      DraftGen.phase2Step, DraftGen.initPhase2, pyInt]
  · norm_num [DraftGen.calculate_speed_factor, DraftGen.TARGET_DURATION_SECONDS,
      DraftGen.MAX_SPEED_FACTOR]
  · norm_num [Splitter.parse_time_to_seconds, Examples.parse_core_t30s,
      Splitter.VIDEO_SPEED_FACTOR]
  · norm_num [Splitter.parse_time_to_seconds, Examples.parse_core_t30s,
      DraftGen.calculate_speed_factor, DraftGen.TARGET_DURATION_SECONDS,
      DraftGen.MAX_SPEED_FACTOR]

/-- C2 (amended): the splitter's real-world end time divides the parsed
stamp by the fixed constant `VIDEO_SPEED_FACTOR = 1.5` - equal to
`MAX_SPEED_FACTOR` of the generator, and never involving any per-dialogue
inner speed - and this coincides with the outer factor the
GlobalSpeedNormalizer actually computed only when that factor itself is
1.5 (nested duration at least 90 s). -/
theorem C2_splitter_divides_by_constant (s : List Char) :
    Splitter.parse_time_to_seconds s true =
      Splitter.parse_time_to_seconds s false / Splitter.VIDEO_SPEED_FACTOR ∧
    Splitter.VIDEO_SPEED_FACTOR = DraftGen.MAX_SPEED_FACTOR ∧
    (∀ d : ℚ, DraftGen.calculate_speed_factor d = Splitter.VIDEO_SPEED_FACTOR →
      Splitter.parse_time_to_seconds s true =
        Splitter.parse_time_to_seconds s false / DraftGen.calculate_speed_factor d) := by
  have h1 : Splitter.parse_time_to_seconds s true =
      Splitter.parse_time_to_seconds s false / Splitter.VIDEO_SPEED_FACTOR := by
    unfold Splitter.parse_time_to_seconds
    cases Splitter.parse_time_core s with
    | none => simp
    | some t => simp
  refine ⟨h1, by norm_num [Splitter.VIDEO_SPEED_FACTOR, DraftGen.MAX_SPEED_FACTOR], ?_⟩
  intro d hd
  rw [hd]
  exact h1

/-- C2 witness: the amended statement at the stamp `'00:00:30,000'` and a
180 s nested duration (whose computed factor is the full 1.5). -/
theorem C2_witness :
    Splitter.parse_time_to_seconds Examples.t30s true =
      Splitter.parse_time_to_seconds Examples.t30s false /
        DraftGen.calculate_speed_factor 180 :=
  (C2_splitter_divides_by_constant Examples.t30s).2.2 180
    (by norm_num [DraftGen.calculate_speed_factor, DraftGen.TARGET_DURATION_SECONDS,
      DraftGen.MAX_SPEED_FACTOR, Splitter.VIDEO_SPEED_FACTOR])

/-! ### C1 - splitter invariants -/

namespace Splitter

theorem SplitInv.mono {st : SplitState} {k k' : ℕ} (hk : k ≤ k')
    (h : SplitInv st k) : SplitInv st k' := by
  obtain ⟨h1, h2, h3, h4, h5, h6, h7⟩ := h
  exact ⟨h1, h2, h3, h4, fun y hy => lt_of_lt_of_le (h5 y hy) hk, h6,
    fun p hp x hx => lt_of_lt_of_le (h7 p hp x hx) hk⟩

theorem splitStep_inv (ds : List StoryDialogue) (d : StoryDialogue)
    {st : SplitState} {k : ℕ} (h : SplitInv st k) :
    SplitInv (splitStep ds k d st) (k + 1) := by
  obtain ⟨h1, h2, h3, h4, h5, h6, h7⟩ := h
  have hcur : (st.current_dialogues ++ [k]).Pairwise (· < ·) := by
    rw [List.pairwise_append]
    exact ⟨h4, List.pairwise_singleton _ _, fun y hy x hx => by
      rw [List.mem_singleton] at hx; subst hx; exact h5 y hy⟩
  have hcurlt : ∀ y ∈ st.current_dialogues ++ [k], y < k + 1 := by
    intro y hy
    rcases List.mem_append.1 hy with hy | hy
    · exact Nat.lt_succ_of_lt (h5 y hy)
    · rw [List.mem_singleton] at hy; subst hy; exact Nat.lt_succ_self _
  have hold : ∀ p ∈ st.split_points, ∀ x ∈ p.dialogue_indices,
      ∀ y ∈ st.current_dialogues ++ [k], x < y := by
    intro p hp x hx y hy
    rcases List.mem_append.1 hy with hy | hy
    · exact h6 p hp x hx y hy
    · rw [List.mem_singleton] at hy; subst hy; exact h7 p hp x hx
  have hdrop : (st.current_dialogues ++ [k]).dropLast = st.current_dialogues := by
    simp
  have h7' : ∀ p ∈ st.split_points, ∀ x ∈ p.dialogue_indices, x < k + 1 :=
    fun p hp x hx => Nat.lt_succ_of_lt (h7 p hp x hx)
  unfold splitStep
  split_ifs with hseg hmin hmax hlen
  · exact SplitInv.mono (Nat.le_succ _) ⟨h1, h2, h3, h4, h5, h6, h7⟩
  · refine ⟨?_, ?_, ?_, List.Pairwise.nil, by simp, by simp, ?_⟩
    · rw [List.pairwise_append]
      refine ⟨h1, List.pairwise_singleton _ _, ?_⟩
      intro p hp q hq
      rw [List.mem_singleton] at hq; subst hq
      intro x hx y hy
      exact hold p hp x hx y hy
    · intro p hp
      rcases List.mem_append.1 hp with hp | hp
      · exact h2 p hp
      · rw [List.mem_singleton] at hp; subst hp; exact hcur
    · intro p hp
      rcases List.mem_append.1 hp with hp | hp
      · exact h3 p hp
      · rw [List.mem_singleton] at hp; subst hp; rfl
    · intro p hp x hx
      rcases List.mem_append.1 hp with hp | hp
      · exact h7' p hp x hx
      · rw [List.mem_singleton] at hp; subst hp
        exact hcurlt x hx
  · refine ⟨?_, ?_, ?_, List.pairwise_singleton _ _, ?_, ?_, ?_⟩
    · rw [List.pairwise_append]
      refine ⟨h1, List.pairwise_singleton _ _, ?_⟩
      intro p hp q hq
      rw [List.mem_singleton] at hq; subst hq
      intro x hx y hy
      rw [hdrop] at hy
      exact h6 p hp x hx y hy
    · intro p hp
      rcases List.mem_append.1 hp with hp | hp
      · exact h2 p hp
      · rw [List.mem_singleton] at hp; subst hp
        rw [hdrop]
        exact h4
    · intro p hp
      rcases List.mem_append.1 hp with hp | hp
      · exact h3 p hp
      · rw [List.mem_singleton] at hp; subst hp; rfl
    · intro y hy
      rw [List.mem_singleton] at hy; subst hy; exact Nat.lt_succ_self _
    · intro p hp x hx y hy
      rw [List.mem_singleton] at hy; subst hy
      rcases List.mem_append.1 hp with hp | hp
      · exact h7 p hp x hx
      · rw [List.mem_singleton] at hp; subst hp
        rw [hdrop] at hx
        exact h5 x hx
    · intro p hp x hx
      rcases List.mem_append.1 hp with hp | hp
      · exact h7' p hp x hx
      · rw [List.mem_singleton] at hp; subst hp
        rw [hdrop] at hx
        exact Nat.lt_succ_of_lt (h5 x hx)
  · exact ⟨h1, h2, h3, hcur, hcurlt, hold, h7'⟩
  · exact ⟨h1, h2, h3, hcur, hcurlt, hold, h7'⟩

theorem splitLoop_inv (ds : List StoryDialogue) :
    ∀ (rest : List StoryDialogue) (k : ℕ) (st : SplitState),
      SplitInv st k → SplitInv (splitLoop ds k rest st) (k + rest.length) := by
  intro rest
  induction rest with
  | nil => intro k st h; simpa [splitLoop] using h
  | cons d tail ih =>
    intro k st h
    have := ih (k + 1) (splitStep ds k d st) (splitStep_inv ds d h)
    simpa [splitLoop, Nat.add_comm, Nat.add_assoc, Nat.add_left_comm] using this

theorem finishSplit_inv {ds : List StoryDialogue} {st : SplitState} {k : ℕ}
    (h : SplitInv st k) :
    (finishSplit ds st).Pairwise IdxLt ∧
    (∀ p ∈ finishSplit ds st, p.dialogue_indices.Pairwise (· < ·)) ∧
    (∀ p ∈ finishSplit ds st, p.duration = p.end_time - p.start_time) := by
  obtain ⟨h1, h2, h3, h4, h5, h6, h7⟩ := h
  unfold finishSplit
  cases hlast : st.current_dialogues.getLast? with
  | none => exact ⟨h1, h2, h3⟩
  | some lastIdx =>
    dsimp only
    split_ifs with hseg hbound
    · exact ⟨h1, h2, h3⟩
    · refine ⟨?_, ?_, ?_⟩
      · rw [List.pairwise_append]
        refine ⟨h1, List.pairwise_singleton _ _, ?_⟩
        intro p hp q hq
        rw [List.mem_singleton] at hq; subst hq
        intro x hx y hy
        exact h6 p hp x hx y hy
      · intro p hp
        rcases List.mem_append.1 hp with hp | hp
        · exact h2 p hp
        · rw [List.mem_singleton] at hp; subst hp; exact h4
      · intro p hp
        rcases List.mem_append.1 hp with hp | hp
        · exact h3 p hp
        · rw [List.mem_singleton] at hp; subst hp; rfl
    · exact ⟨h1, h2, h3⟩

end Splitter

/-- C1 counterexample: on `backtrackStory` (dialogues ending at 20 s and
120 s post-inversion) the backtrack branch emits the SplitPoint
`{0 s, 20 s}` whose duration 20 is below `TARGET_MIN_DURATION = 36`: the
claimed bound `MIN <= end - start <= MAX` does not hold for every emitted
SplitPoint. -/
theorem C1_counterexample :
    Splitter.calculate_split_points Examples.backtrackStory =
      [⟨0, 20, 20, [0]⟩] ∧
    ¬ Splitter.TARGET_MIN_DURATION ≤ (20 : ℚ) := by
  constructor
  · norm_num [Examples.backtrackStory, Splitter.calculate_split_points,
      Splitter.finishSplit, Splitter.splitLoop, Splitter.splitStep,
      Splitter.prevEndSeconds, Splitter.dialogueEndSeconds,
      Splitter.parse_time_to_seconds, Examples.parse_core_t0s,
      Examples.parse_core_t30s, Examples.parse_core_t180s,
      Splitter.VIDEO_SPEED_FACTOR, Splitter.TARGET_MIN_DURATION,
      Splitter.TARGET_MAX_DURATION]
  · norm_num [Splitter.TARGET_MIN_DURATION]

/-- C1 (amended): across every `calculate_split_points` output the
`dialogue_indices` are strictly increasing within each SplitPoint and
pairwise disjoint in strictly increasing order across the list (every
index of an earlier SplitPoint precedes every index of a later one), and
each recorded `duration` equals `end_time - start_time`; the duration
window `[TARGET_MIN_DURATION, TARGET_MAX_DURATION]` is guaranteed only
for SplitPoints emitted by the in-range branch and the trailing check,
not for backtrack-emitted ones (see the counterexample). -/
theorem C1_split_points_disjoint_sorted (dialogues : List StoryDialogue) :
    (Splitter.calculate_split_points dialogues).Pairwise Splitter.IdxLt ∧
    (∀ p ∈ Splitter.calculate_split_points dialogues,
      p.dialogue_indices.Pairwise (· < ·)) ∧
    (∀ p ∈ Splitter.calculate_split_points dialogues,
      p.duration = p.end_time - p.start_time) := by
  have h0 : Splitter.SplitInv ⟨[], 0, []⟩ 0 :=
    ⟨List.Pairwise.nil, by simp, by simp, List.Pairwise.nil, by simp, by simp, by simp⟩
  exact Splitter.finishSplit_inv (Splitter.splitLoop_inv dialogues dialogues 0 _ h0)

/-! ### C7 - round-trip of the subtitle time codec -/

theorem splitOnChar_of_not_mem {c : Char} {l : List Char} (h : c ∉ l) :
    splitOnChar c l = [l] := by
  induction l with
  | nil => rfl
  | cons x xs ih =>
    have hx : x ≠ c := fun hxc => h (hxc ▸ List.mem_cons_self x xs)
    have hxs : c ∉ xs := fun hm => h (List.mem_cons_of_mem x hm)
    rw [splitOnChar, ih hxs]
    simp [hx]

theorem splitOnChar_append {c : Char} {A : List Char} (B : List Char)
    (h : c ∉ A) : splitOnChar c (A ++ c :: B) = A :: splitOnChar c B := by
  induction A with
  | nil =>
    rw [List.nil_append, splitOnChar]
    cases hB : splitOnChar c B with
    | nil =>
      exfalso
      induction B with
      | nil => simp [splitOnChar] at hB
      | cons b bs ihb =>
        rw [splitOnChar] at hB
        rcases hsp : splitOnChar c bs with _ | ⟨y, ys⟩
        · exact ihb hsp
        · rw [hsp] at hB
          by_cases hbc : b = c <;> simp [hbc] at hB
    | cons y ys => simp
  | cons a A ih =>
    have ha : a ≠ c := fun hac => h (hac ▸ List.mem_cons_self a A)
    have hA : c ∉ A := fun hm => h (List.mem_cons_of_mem a hm)
    rw [List.cons_append, splitOnChar, ih hA]
    simp [ha]

theorem digitChar_lt_ten (d : ℕ) (hd : d < 10) :
    digitChar d = '0' ∨ digitChar d = '1' ∨ digitChar d = '2' ∨
    digitChar d = '3' ∨ digitChar d = '4' ∨ digitChar d = '5' ∨
    digitChar d = '6' ∨ digitChar d = '7' ∨ digitChar d = '8' ∨
    digitChar d = '9' := by
  interval_cases d <;> simp [digitChar]

theorem charDigit?_digitChar (d : ℕ) (hd : d < 10) :
    charDigit? (digitChar d) = some d := by
  interval_cases d <;> simp [digitChar, charDigit?]

theorem digitChar_ne_comma (d : ℕ) (hd : d < 10) : digitChar d ≠ ',' := by
  rcases digitChar_lt_ten d hd with h | h | h | h | h | h | h | h | h | h <;>
    simp [h]

theorem digitChar_ne_colon (d : ℕ) (hd : d < 10) : digitChar d ≠ ':' := by
  rcases digitChar_lt_ten d hd with h | h | h | h | h | h | h | h | h | h <;>
    simp [h]

theorem digitChar_ne_minus (d : ℕ) (hd : d < 10) : digitChar d ≠ '-' := by
  rcases digitChar_lt_ten d hd with h | h | h | h | h | h | h | h | h | h <;>
    simp [h]

theorem natRepr_mem (n : ℕ) :
    ∀ ch ∈ natRepr n, ∃ d, d < 10 ∧ ch = digitChar d := by
  intro ch hch
  unfold natRepr at hch
  split_ifs at hch with h0
  · rw [List.mem_singleton] at hch
    exact ⟨0, by norm_num, by simp [hch, digitChar]⟩
  · rw [List.mem_map] at hch
    obtain ⟨d, hd, hch⟩ := hch
    rw [List.mem_reverse] at hd
    exact ⟨d, Nat.digits_lt_base (by norm_num) hd, hch.symm⟩

theorem pad2_mem (n : ℕ) :
    ∀ ch ∈ pad2 n, ∃ d, d < 10 ∧ ch = digitChar d := by
  intro ch hch
  unfold pad2 at hch
  split_ifs at hch with h
  · rcases List.mem_cons.1 hch with hch | hch
    · exact ⟨0, by norm_num, by simp [hch, digitChar]⟩
    · exact natRepr_mem n ch hch
  · exact natRepr_mem n ch hch

theorem pad3_mem (n : ℕ) :
    ∀ ch ∈ pad3 n, ∃ d, d < 10 ∧ ch = digitChar d := by
  intro ch hch
  unfold pad3 at hch
  split_ifs at hch with h1 h2
  · rcases List.mem_cons.1 hch with hch | hch
    · exact ⟨0, by norm_num, by simp [hch, digitChar]⟩
    · rcases List.mem_cons.1 hch with hch | hch
      · exact ⟨0, by norm_num, by simp [hch, digitChar]⟩
      · exact natRepr_mem n ch hch
  · rcases List.mem_cons.1 hch with hch | hch
    · exact ⟨0, by norm_num, by simp [hch, digitChar]⟩
    · exact natRepr_mem n ch hch
  · exact natRepr_mem n ch hch

theorem comma_not_mem_pad2 (n : ℕ) : ',' ∉ pad2 n := by
  intro h
  obtain ⟨d, hd, hch⟩ := pad2_mem n ',' h
  exact digitChar_ne_comma d hd hch.symm

theorem comma_not_mem_pad3 (n : ℕ) : ',' ∉ pad3 n := by
  intro h
  obtain ⟨d, hd, hch⟩ := pad3_mem n ',' h
  exact digitChar_ne_comma d hd hch.symm

theorem colon_not_mem_pad2 (n : ℕ) : ':' ∉ pad2 n := by
  intro h
  obtain ⟨d, hd, hch⟩ := pad2_mem n ':' h
  exact digitChar_ne_colon d hd hch.symm

theorem digitsVal_cons (d : ℕ) (L : List ℕ) :
    digitsVal (d :: L) = L.foldl (fun a x => 10 * a + x) d := by
  simp [digitsVal]

theorem digitsVal_append_single (L : List ℕ) (d : ℕ) :
    digitsVal (L ++ [d]) = 10 * digitsVal L + d := by
  simp [digitsVal, List.foldl_append]

theorem digitsVal_reverse_eq_ofDigits (L : List ℕ) :
    digitsVal L.reverse = Nat.ofDigits 10 L := by
  induction L with
  | nil => rfl
  | cons d L ih =>
    rw [List.reverse_cons, digitsVal_append_single, ih, Nat.ofDigits_cons]
    ring

theorem digitsOfChars?_map_digitChar (L : List ℕ) (hL : ∀ d ∈ L, d < 10) :
    digitsOfChars? (L.map digitChar) = some L := by
  induction L with
  | nil => rfl
  | cons d L ih =>
    have hd : d < 10 := hL d (List.mem_cons_self d L)
    have hrest : ∀ x ∈ L, x < 10 := fun x hx => hL x (List.mem_cons_of_mem d hx)
    rw [List.map_cons, digitsOfChars?, charDigit?_digitChar d hd, ih hrest]
    rfl

theorem natRepr_ne_nil (n : ℕ) : natRepr n ≠ [] := by
  unfold natRepr
  split_ifs with h0
  · simp
  · simp [Nat.digits_ne_nil_iff_ne_zero.2 h0]

theorem natOfChars?_natRepr (n : ℕ) : natOfChars? (natRepr n) = some n := by
  rw [natOfChars?, if_neg (natRepr_ne_nil n)]
  unfold natRepr
  split_ifs with h0
  · subst h0
    simp [digitsOfChars?, charDigit?, digitsVal]
  · rw [digitsOfChars?_map_digitChar _ (fun d hd =>
      Nat.digits_lt_base (by norm_num) (List.mem_reverse.1 hd))]
    simp [digitsVal_reverse_eq_ofDigits, Nat.ofDigits_digits]

theorem digitsVal_zero_cons (L : List ℕ) : digitsVal (0 :: L) = digitsVal L := by
  simp [digitsVal]

theorem natOfChars?_cons_zero (l : List Char) (m : ℕ)
    (h : natOfChars? l = some m) : natOfChars? ('0' :: l) = some m := by
  by_cases hl : l = []
  · subst hl
    simp [natOfChars?] at h
  · rw [natOfChars?, if_neg hl] at h
    rw [natOfChars?, if_neg (by simp)]
    cases hdig : digitsOfChars? l with
    | none =>
      rw [hdig] at h
      exact Option.noConfusion h
    | some ds =>
      rw [hdig] at h
      rw [Option.map_some'] at h
      rw [Option.some_inj] at h
      rw [digitsOfChars?]
      simp [charDigit?, hdig, digitsVal_zero_cons, h]

theorem natOfChars?_pad2 (n : ℕ) : natOfChars? (pad2 n) = some n := by
  unfold pad2
  split_ifs with h
  · exact natOfChars?_cons_zero _ n (natOfChars?_natRepr n)
  · exact natOfChars?_natRepr n

theorem natOfChars?_pad3 (n : ℕ) : natOfChars? (pad3 n) = some n := by
  unfold pad3
  split_ifs with h1 h2
  · exact natOfChars?_cons_zero _ n
      (natOfChars?_cons_zero _ n (natOfChars?_natRepr n))
  · exact natOfChars?_cons_zero _ n (natOfChars?_natRepr n)
  · exact natOfChars?_natRepr n

theorem pad2_head_not_minus (n : ℕ) : ∀ rest, pad2 n ≠ '-' :: rest := by
  intro rest h
  have hmem : '-' ∈ pad2 n := by rw [h]; exact List.mem_cons_self _ _
  obtain ⟨d, hd, hch⟩ := pad2_mem n '-' hmem
  exact digitChar_ne_minus d hd hch.symm

theorem pad3_head_not_minus (n : ℕ) : ∀ rest, pad3 n ≠ '-' :: rest := by
  intro rest h
  have hmem : '-' ∈ pad3 n := by rw [h]; exact List.mem_cons_self _ _
  obtain ⟨d, hd, hch⟩ := pad3_mem n '-' hmem
  exact digitChar_ne_minus d hd hch.symm

theorem pyIntOfChars?_of_not_minus (l : List Char)
    (h : ∀ rest, l ≠ '-' :: rest) :
    pyIntOfChars? l = (natOfChars? l).map (fun n => (n : ℤ)) := by
  unfold pyIntOfChars?
  split
  · rename_i rest
    exact absurd rfl (h rest)
  · rfl

theorem pyIntOfChars?_pad2 (n : ℕ) : pyIntOfChars? (pad2 n) = some (n : ℤ) := by
  rw [pyIntOfChars?_of_not_minus _ (pad2_head_not_minus n), natOfChars?_pad2]
  rfl

theorem pyIntOfChars?_pad3 (n : ℕ) : pyIntOfChars? (pad3 n) = some (n : ℤ) := by
  rw [pyIntOfChars?_of_not_minus _ (pad3_head_not_minus n), natOfChars?_pad3]
  rfl

theorem floor_nat_div (a b : ℕ) (hb : 0 < b) :
    ⌊(a : ℚ) / (b : ℚ)⌋ = ((a / b : ℕ) : ℤ) := by
  have hb' : (0 : ℚ) < b := by exact_mod_cast hb
  have hub : a < (a / b + 1) * b := by
    have h4 := Nat.div_add_mod a b
    have h5 := Nat.mod_lt a hb
    calc a = b * (a / b) + a % b := h4.symm
    _ < b * (a / b) + b := by omega
    _ = (a / b + 1) * b := by ring
  rw [Int.floor_eq_iff]
  constructor
  · rw [le_div_iff₀ hb']
    exact_mod_cast Nat.div_mul_le_self a b
  · rw [div_lt_iff₀ hb']
    exact_mod_cast hub

theorem pyInt_of_nonneg {q : ℚ} (h : 0 ≤ q) : pyInt q = ⌊q⌋ := by
  rw [pyInt, if_pos h]

theorem pyInt_natCast (n : ℕ) : pyInt ((n : ℕ) : ℚ) = (n : ℤ) := by
  rw [pyInt_of_nonneg (by positivity), Int.floor_natCast]

theorem pymod_nat_div_1000 (t b : ℕ) (hb : 0 < b) :
    pymod ((t : ℚ) / 1000) (b : ℚ) = ((t % (1000 * b) : ℕ) : ℚ) / 1000 := by
  unfold pymod
  have hd : (t : ℚ) / 1000 / b = (t : ℚ) / ((1000 * b : ℕ) : ℚ) := by
    rw [div_div]
    push_cast
    ring_nf
  rw [hd, floor_nat_div t (1000 * b) (by positivity)]
  have hcast : (((t / (1000 * b) : ℕ) : ℤ) : ℚ) = ((t / (1000 * b) : ℕ) : ℚ) := by
    exact_mod_cast rfl
  rw [hcast, eq_div_iff (by norm_num : (1000 : ℚ) ≠ 0)]
  have h1 : (t : ℚ) =
      1000 * (b : ℚ) * ((t / (1000 * b) : ℕ) : ℚ) + ((t % (1000 * b) : ℕ) : ℚ) := by
    have := (Nat.div_add_mod t (1000 * b)).symm
    calc (t : ℚ) = (((1000 * b) * (t / (1000 * b)) + t % (1000 * b) : ℕ) : ℚ) := by
          exact_mod_cast this
    _ = 1000 * (b : ℚ) * ((t / (1000 * b) : ℕ) : ℚ) + ((t % (1000 * b) : ℕ) : ℚ) := by
          push_cast
          ring
  ring_nf
  ring_nf at h1
  linarith

theorem pymod_nonneg_of_pos {a b : ℚ} (hb : 0 < b) : 0 ≤ pymod a b := by
  unfold pymod
  have h2 : (⌊a / b⌋ : ℚ) ≤ a / b := Int.floor_le _
  have h3 : b * (⌊a / b⌋ : ℚ) ≤ b * (a / b) :=
    mul_le_mul_of_nonneg_left h2 (le_of_lt hb)
  have h4 : b * (a / b) = a := by
    rw [mul_comm]
    exact div_mul_cancel₀ a (ne_of_gt hb)
  linarith

/-- Evaluation of `fpRound` in the round-down case, at a known exponent
and significand. -/
theorem fpRound_eval_down (q v : ℚ) (e n : ℤ) (hq : 0 < q)
    (he : Int.log 2 q = e) (hn : ⌊q * 2 ^ (52 - e)⌋ = n)
    (hr : q * 2 ^ (52 - e) - (n : ℚ) < 1 / 2)
    (hv : (n : ℚ) * 2 ^ (e - 52) = v) :
    fpRound q = v := by
  rw [fpRound, if_neg (ne_of_gt hq), abs_of_pos hq, he, hn, if_pos hr,
    if_pos (le_of_lt hq), one_mul, hv]

/-- Evaluation of `fpRound` in the round-up case. -/
theorem fpRound_eval_up (q v : ℚ) (e n : ℤ) (hq : 0 < q)
    (he : Int.log 2 q = e) (hn : ⌊q * 2 ^ (52 - e)⌋ = n)
    (hr : 1 / 2 < q * 2 ^ (52 - e) - (n : ℚ))
    (hv : ((n : ℚ) + 1) * 2 ^ (e - 52) = v) :
    fpRound q = v := by
  rw [fpRound, if_neg (ne_of_gt hq), abs_of_pos hq, he, hn,
    if_neg (not_lt.mpr (le_of_lt hr)), if_pos hr, if_pos (le_of_lt hq), one_mul, hv]

/-- A value whose scaled significand is an integer is a binary64 double
and is fixed by the rounding. -/
theorem fpRound_eq_self (q : ℚ) (n : ℤ) (hq : 0 < q)
    (hn : q * 2 ^ (52 - Int.log 2 q) = (n : ℚ)) : fpRound q = q := by
  have h1 : ((2 : ℚ) ^ ((52 : ℤ) - Int.log 2 q)) * 2 ^ (Int.log 2 q - 52) = 1 := by
    rw [← zpow_add₀ (by norm_num : (2 : ℚ) ≠ 0)]
    norm_num
  refine fpRound_eval_down q q (Int.log 2 q) n hq rfl ?_ ?_ ?_
  · rw [hn, Int.floor_intCast]
  · rw [hn]
    norm_num
  · rw [← hn, mul_assoc, h1, mul_one]

/-- `k / 2^c` with `k < 2^53` is exactly representable in binary64. -/
theorem fpRound_dyadic (k c : ℕ) (hk : 0 < k) (hlt : (k : ℚ) < 2 ^ 53) :
    fpRound ((k : ℚ) / 2 ^ c) = (k : ℚ) / 2 ^ c := by
  set q : ℚ := (k : ℚ) / 2 ^ c with hqdef
  have hq : 0 < q := by positivity
  have hub : q < 2 ^ ((53 : ℤ) - (c : ℤ)) := by
    rw [hqdef, div_lt_iff₀ (by positivity : (0 : ℚ) < 2 ^ c)]
    have h2 : ((2 : ℚ) ^ ((53 : ℤ) - (c : ℤ))) * 2 ^ (c : ℕ) = 2 ^ (53 : ℕ) := by
      rw [← zpow_natCast (2 : ℚ) c, ← zpow_add₀ (by norm_num : (2 : ℚ) ≠ 0)]
      have hexp : (53 : ℤ) - (c : ℤ) + (c : ℤ) = ((53 : ℕ) : ℤ) := by omega
      rw [hexp, zpow_natCast]
    rw [h2]
    exact hlt
  have hle : Int.log 2 q ≤ 52 - (c : ℤ) := by
    by_contra hcon
    push_neg at hcon
    have h3 : (2 : ℚ) ^ ((53 : ℤ) - (c : ℤ)) ≤ 2 ^ (Int.log 2 q) := by
      apply zpow_le_zpow_right₀ (by norm_num : (1 : ℚ) ≤ 2)
      omega
    have h4 : (2 : ℚ) ^ (Int.log 2 q) ≤ q := Int.zpow_log_le_self (by norm_num) hq
    linarith
  apply fpRound_eq_self q (k * 2 ^ (((52 : ℤ) - (c : ℤ) - Int.log 2 q).toNat)) hq
  have hd : (52 : ℤ) - Int.log 2 q =
      (((52 : ℤ) - (c : ℤ) - Int.log 2 q).toNat : ℤ) + (c : ℤ) := by omega
  rw [hqdef, hd, zpow_add₀ (by norm_num : (2 : ℚ) ≠ 0), zpow_natCast, zpow_natCast]
  push_cast
  have hc : ((2 : ℚ) ^ (c : ℕ)) ≠ 0 := by positivity
  field_simp
  ring

/-- A natural number below `2^53` is a binary64 double. -/
theorem fpRound_natCast (n : ℕ) (hlt : (n : ℚ) < 2 ^ 53) : fpRound (n : ℚ) = n := by
  rcases Nat.eq_zero_or_pos n with h0 | hp
  · subst h0
    simp [fpRound]
  · have h := fpRound_dyadic n 0 hp hlt
    simpa using h

/-- The binary exponent of `8.7` is 3. -/
theorem fp_log_87_10 : Int.log 2 ((87 : ℚ) / 10) = 3 := by
  unfold Int.log
  rw [if_pos (by norm_num : (1 : ℚ) ≤ 87 / 10)]
  have hfl : Nat.floor ((87 : ℚ) / 10) = 8 := by
    rw [Nat.floor_eq_iff (by norm_num)]
    norm_num
  rw [hfl]
  have hlog : Nat.log 2 8 = 3 :=
    Nat.log_eq_of_pow_le_of_lt_pow (by norm_num) (by norm_num)
  rw [hlog]
  norm_num

/-- The binary exponent of the fractional-part product
`(double(8.7) - 8) * 1000` is 9. -/
theorem fp_log_prod : Int.log 2 ((394064967394918000 : ℚ) / 562949953421312) = 9 := by
  unfold Int.log
  rw [if_pos (by norm_num : (1 : ℚ) ≤ 394064967394918000 / 562949953421312)]
  have hfl : Nat.floor ((394064967394918000 : ℚ) / 562949953421312) = 699 := by
    rw [Nat.floor_eq_iff (by norm_num)]
    norm_num
  rw [hfl]
  have hlog : Nat.log 2 699 = 9 :=
    Nat.log_eq_of_pow_le_of_lt_pow (by norm_num) (by norm_num)
  rw [hlog]
  norm_num

/-- The double nearest `8.7` is `4897664594765414 / 2^49`, which is
slightly below `8.7`. -/
theorem fp_in_8700 :
    fpRound ((8700 : ℚ) / 1000) = 4897664594765414 / 562949953421312 := by
  have hq : (8700 : ℚ) / 1000 = 87 / 10 := by norm_num
  rw [hq]
  apply fpRound_eval_down (87 / 10) _ 3 4897664594765414 (by norm_num) fp_log_87_10
  · have hz : ((2 : ℚ)) ^ ((52 : ℤ) - 3) = 562949953421312 := by
      have h49 : ((52 : ℤ) - 3) = ((49 : ℕ) : ℤ) := by norm_num
      rw [h49, zpow_natCast]
      norm_num
    rw [hz]
    norm_num
  · have hz : ((2 : ℚ)) ^ ((52 : ℤ) - 3) = 562949953421312 := by
      have h49 : ((52 : ℤ) - 3) = ((49 : ℕ) : ℤ) := by norm_num
      rw [h49, zpow_natCast]
      norm_num
    rw [hz]
    norm_num
  · have hz : ((2 : ℚ)) ^ ((3 : ℤ) - 52) = (562949953421312 : ℚ)⁻¹ := by
      have h49 : ((3 : ℤ) - 52) = -((49 : ℕ) : ℤ) := by norm_num
      rw [h49, zpow_neg, zpow_natCast]
      norm_num
    rw [hz]
    norm_num

/-- Multiplying the fractional part of `double(8.7)` by 1000 rounds to a
double just below 700. -/
theorem fp_mul_699 :
    fpRound (((4897664594765414 : ℚ) / 562949953421312 - 8) * 1000) =
      6157265115545594 / 8796093022208 := by
  have hq : ((4897664594765414 : ℚ) / 562949953421312 - 8) * 1000 =
      394064967394918000 / 562949953421312 := by norm_num
  rw [hq]
  apply fpRound_eval_up _ _ 9 6157265115545593 (by norm_num) fp_log_prod
  · have hz : ((2 : ℚ)) ^ ((52 : ℤ) - 9) = 8796093022208 := by
      have h43 : ((52 : ℤ) - 9) = ((43 : ℕ) : ℤ) := by norm_num
      rw [h43, zpow_natCast]
      norm_num
    rw [hz]
    norm_num
  · have hz : ((2 : ℚ)) ^ ((52 : ℤ) - 9) = 8796093022208 := by
      have h43 : ((52 : ℤ) - 9) = ((43 : ℕ) : ℤ) := by norm_num
      rw [h43, zpow_natCast]
      norm_num
    rw [hz]
    norm_num
  · have hz : ((2 : ℚ)) ^ ((9 : ℤ) - 52) = (8796093022208 : ℚ)⁻¹ := by
      have h43 : ((9 : ℤ) - 52) = -((43 : ℕ) : ℤ) := by norm_num
      rw [h43, zpow_neg, zpow_natCast]
      norm_num
    rw [hz]
    norm_num

theorem format_time_eq (t : ℕ) :
    SrtGen.format_time ((t : ℚ) / 1000) =
      pad2 (t / 3600000) ++ ':' :: pad2 (t % 3600000 / 60000) ++
        ':' :: pad2 (t % 60000 / 1000) ++ ',' :: pad3 (t % 1000) := by
  have hh : ⌊(t : ℚ) / 1000 / 3600⌋ = ((t / 3600000 : ℕ) : ℤ) := by
    rw [div_div]
    have h36 : (1000 : ℚ) * 3600 = ((3600000 : ℕ) : ℚ) := by norm_num
    rw [h36, floor_nat_div t 3600000 (by norm_num)]
  have hm : ⌊pymod ((t : ℚ) / 1000) 3600 / 60⌋ = ((t % 3600000 / 60000 : ℕ) : ℤ) := by
    have h36 : ((3600 : ℕ) : ℚ) = (3600 : ℚ) := by norm_num
    rw [← h36, pymod_nat_div_1000 t 3600 (by norm_num), div_div]
    have h60 : (1000 : ℚ) * 60 = ((60000 : ℕ) : ℚ) := by norm_num
    rw [h60, floor_nat_div _ 60000 (by norm_num)]
  have hs : pyInt (pymod ((t : ℚ) / 1000) 60) = ((t % 60000 / 1000 : ℕ) : ℤ) := by
    have h60 : ((60 : ℕ) : ℚ) = (60 : ℚ) := by norm_num
    rw [pyInt_of_nonneg (pymod_nonneg_of_pos (by norm_num)), ← h60,
      pymod_nat_div_1000 t 60 (by norm_num)]
    have h1000 : ((1000 : ℕ) : ℚ) = (1000 : ℚ) := by norm_num
    rw [← h1000, floor_nat_div _ 1000 (by norm_num)]
  have hint : pyInt ((t : ℚ) / 1000) = ((t / 1000 : ℕ) : ℤ) := by
    rw [pyInt_of_nonneg (by positivity)]
    have h1000 : ((1000 : ℕ) : ℚ) = (1000 : ℚ) := by norm_num
    rw [← h1000, floor_nat_div t 1000 (by norm_num)]
  have hms : pyInt (fpRound (((t : ℚ) / 1000 - (pyInt ((t : ℚ) / 1000) : ℚ)) * 1000)) =
      ((t % 1000 : ℕ) : ℤ) := by
    rw [hint]
    have hcast : (((t / 1000 : ℕ) : ℤ) : ℚ) = ((t / 1000 : ℕ) : ℚ) := by
      exact_mod_cast rfl
    have h1 : (t : ℚ) = 1000 * ((t / 1000 : ℕ) : ℚ) + ((t % 1000 : ℕ) : ℚ) := by
      have := (Nat.div_add_mod t 1000).symm
      calc (t : ℚ) = ((1000 * (t / 1000) + t % 1000 : ℕ) : ℚ) := by
            exact_mod_cast this
      _ = 1000 * ((t / 1000 : ℕ) : ℚ) + ((t % 1000 : ℕ) : ℚ) := by
            push_cast
            ring
    have h2 : ((t : ℚ) / 1000 - (((t / 1000 : ℕ) : ℤ) : ℚ)) * 1000 =
        ((t % 1000 : ℕ) : ℚ) := by
      rw [hcast]
      have : ((t : ℚ) / 1000) * 1000 = (t : ℚ) := by
        field_simp
      ring_nf
      ring_nf at h1 this
      linarith
    have hfp : fpRound ((t % 1000 : ℕ) : ℚ) = ((t % 1000 : ℕ) : ℚ) := by
      apply fpRound_natCast
      have hb : t % 1000 < 1000 := Nat.mod_lt t (by norm_num)
      calc ((t % 1000 : ℕ) : ℚ) < ((1000 : ℕ) : ℚ) := by exact_mod_cast hb
      _ < 2 ^ 53 := by norm_num
    rw [h2, hfp, pyInt_natCast]
  unfold SrtGen.format_time
  rw [hh, hm, hs, hms]
  simp only [Int.toNat_natCast]

theorem comma_not_mem_time_part (h m s : ℕ) :
    ',' ∉ pad2 h ++ ':' :: (pad2 m ++ ':' :: pad2 s) := by
  intro hmem
  rcases List.mem_append.1 hmem with h1 | h1
  · exact comma_not_mem_pad2 h h1
  · rcases List.mem_cons.1 h1 with h2 | h2
    · simp at h2
    · rcases List.mem_append.1 h2 with h3 | h3
      · exact comma_not_mem_pad2 m h3
      · rcases List.mem_cons.1 h3 with h4 | h4
        · simp at h4
        · exact comma_not_mem_pad2 s h4

theorem splitColon_time_part (h m s : ℕ) :
    splitOnChar ':' (pad2 h ++ ':' :: (pad2 m ++ ':' :: pad2 s)) =
      [pad2 h, pad2 m, pad2 s] := by
  rw [splitOnChar_append _ (colon_not_mem_pad2 h),
    splitOnChar_append _ (colon_not_mem_pad2 m),
    splitOnChar_of_not_mem (colon_not_mem_pad2 s)]

theorem srt_time_core_stamp (h m s ms : ℕ) :
    DraftGen.srt_time_core
      (pad2 h ++ ':' :: pad2 m ++ ':' :: pad2 s ++ ',' :: pad3 ms) =
      some (((h : ℤ) * 3600 + (m : ℤ) * 60 + (s : ℤ)) * 1000000 + (ms : ℤ) * 1000) := by
  have hassoc : pad2 h ++ ':' :: pad2 m ++ ':' :: pad2 s ++ ',' :: pad3 ms =
      (pad2 h ++ ':' :: (pad2 m ++ ':' :: pad2 s)) ++ ',' :: pad3 ms := by
    simp [List.append_assoc]
  rw [hassoc]
  unfold DraftGen.srt_time_core
  rw [splitOnChar_append _ (comma_not_mem_time_part h m s),
    splitOnChar_of_not_mem (comma_not_mem_pad3 ms)]
  dsimp only
  rw [splitColon_time_part h m s]
  dsimp only
  rw [pyIntOfChars?_pad2 h, pyIntOfChars?_pad2 m, pyIntOfChars?_pad2 s,
    pyIntOfChars?_pad3 ms]
  rfl

/-- C7 counterexample: the program holds `t = 8700` ms as the binary64
double nearest `8.7` s, which is `4897664594765414 / 2^49`, slightly below
`8.7`; its fractional part times 1000 rounds to a double just below 700,
and `int()` truncates it to 699, so `_format_time` renders `00:00:08,699`
and the parse returns 8699000 microseconds, not `1000 * 8700`: the claimed
round-trip law fails on the code. -/
theorem C7_counterexample :
    fpRound ((8700 : ℚ) / 1000) = 4897664594765414 / 562949953421312 ∧
    DraftGen.srt_time_core
        (SrtGen.format_time (fpRound ((8700 : ℚ) / 1000))) = some 8699000 ∧
    (8699000 : ℤ) ≠ 1000 * 8700 := by
  refine ⟨fp_in_8700, ?_, by norm_num⟩
  rw [fp_in_8700]
  have hform : SrtGen.format_time ((4897664594765414 : ℚ) / 562949953421312) =
      pad2 0 ++ ':' :: pad2 0 ++ ':' :: pad2 8 ++ ',' :: pad3 699 := by
    have hh : ⌊(4897664594765414 : ℚ) / 562949953421312 / 3600⌋ = ((0 : ℕ) : ℤ) := by
      norm_num
    have hmod3600 : pymod ((4897664594765414 : ℚ) / 562949953421312) 3600 =
        (4897664594765414 : ℚ) / 562949953421312 := by
      unfold pymod
      norm_num
    have hm : ⌊pymod ((4897664594765414 : ℚ) / 562949953421312) 3600 / 60⌋ =
        ((0 : ℕ) : ℤ) := by
      rw [hmod3600]
      norm_num
    have hmod60 : pymod ((4897664594765414 : ℚ) / 562949953421312) 60 =
        (4897664594765414 : ℚ) / 562949953421312 := by
      unfold pymod
      norm_num
    have hs : pyInt (pymod ((4897664594765414 : ℚ) / 562949953421312) 60) =
        ((8 : ℕ) : ℤ) := by
      rw [hmod60, pyInt_of_nonneg (by norm_num)]
      norm_num
    have hint : pyInt ((4897664594765414 : ℚ) / 562949953421312) = 8 := by
      rw [pyInt_of_nonneg (by norm_num)]
      norm_num
    have hms : pyInt (fpRound (((4897664594765414 : ℚ) / 562949953421312 -
        (pyInt ((4897664594765414 : ℚ) / 562949953421312) : ℚ)) * 1000)) =
        ((699 : ℕ) : ℤ) := by
      rw [hint]
      have harg : ((4897664594765414 : ℚ) / 562949953421312 - ((8 : ℤ) : ℚ)) * 1000 =
          ((4897664594765414 : ℚ) / 562949953421312 - 8) * 1000 := by norm_num
      rw [harg, fp_mul_699, pyInt_of_nonneg (by norm_num)]
      norm_num
    unfold SrtGen.format_time
    rw [hh, hm, hs, hms]
    simp only [Int.toNat_natCast]
  rw [hform, srt_time_core_stamp]
  norm_num

/-- C7 (amended): the round-trip law `parse(format(t)) = t` holds for the
millisecond values the program can hold exactly - `t` a multiple of 125,
so that `t / 1000` seconds is a dyadic rational representable in binary64
(for `t` below `125 * 2^53`) - and then the stored double is exactly
`t / 1000`; for other values the stored double and the truncating
millisecond computation lose up to one millisecond (see
`C7_counterexample` at `t = 8700`), so the spec's law over all
millisecond-representable values fails on the code. -/
theorem C7_subtitle_time_round_trip (t : ℕ) (hdvd : 125 ∣ t)
    (hlt : t < 125 * 2 ^ 53) :
    fpRound ((t : ℚ) / 1000) = (t : ℚ) / 1000 ∧
    DraftGen.srt_time_core (SrtGen.format_time (fpRound ((t : ℚ) / 1000))) =
      some ((1000 : ℤ) * t) := by
  obtain ⟨k, hk⟩ := hdvd
  have h1 : fpRound ((t : ℚ) / 1000) = (t : ℚ) / 1000 := by
    rcases Nat.eq_zero_or_pos k with h0 | hp
    · subst h0
      norm_num at hk
      subst hk
      norm_num [fpRound]
    · have hq : (t : ℚ) / 1000 = (k : ℚ) / 2 ^ 3 := by
        subst hk
        push_cast
        ring
      rw [hq]
      apply fpRound_dyadic k 3 hp
      have hk53 : k < 2 ^ 53 := by
        rw [hk] at hlt
        exact Nat.lt_of_mul_lt_mul_left hlt
      exact_mod_cast hk53
  refine ⟨h1, ?_⟩
  rw [h1, format_time_eq, srt_time_core_stamp]
  congr 1
  omega

/-- Witness for `C7_subtitle_time_round_trip` at `t = 8500` ms (`8.5` s is
a dyadic rational, hence an exact double): the format/parse round trip
returns exactly `8500000` microseconds. -/
theorem C7_witness :
    (125 ∣ 8500) ∧ 8500 < 125 * 2 ^ 53 ∧
    (fpRound (((8500 : ℕ) : ℚ) / 1000) = ((8500 : ℕ) : ℚ) / 1000 ∧
     DraftGen.srt_time_core
        (SrtGen.format_time (fpRound (((8500 : ℕ) : ℚ) / 1000))) =
       some ((1000 : ℤ) * ((8500 : ℕ) : ℤ))) :=
  ⟨by norm_num, by norm_num,
    C7_subtitle_time_round_trip 8500 (by norm_num) (by norm_num)⟩


/-! ### Shared lemmas for the timeline-synthesis claims (C4, C5, C6, C9) -/

namespace DraftGen

theorem Contig_append {l1 l2 : List SegInfo} {t t1 t2 : ℚ}
    (h1 : Contig t l1 t1) (h2 : Contig t1 l2 t2) : Contig t (l1 ++ l2) t2 := by
  induction l1 generalizing t with
  | nil =>
    rw [Contig] at h1
    subst h1
    exact h2
  | cons i rest ih =>
    obtain ⟨hstart, hrest⟩ := h1
    exact ⟨hstart, ih hrest⟩

theorem buildSpanInfos_proj (sp : ℚ) (ap : MediaPath) (srt : Option MediaPath)
    (di tot : ℕ) :
    ∀ (segs : List SpanStr) (k : ℕ) (t : ℚ) (infos : List SegInfo) (t' : ℚ),
      buildSpanInfos sp ap srt di tot segs k t = some (infos, t') →
      Contig t infos t' ∧
      (∀ i ∈ infos, i.video_speed = sp ∧ i.audio_path = ap ∧
        i.dialogue_index = di ∧ i.dialogue_srt_path = srt ∧
        i.adjusted_duration = i.source_duration / sp) ∧
      infos.map (fun i => i.video_seg_idx) = List.range' k infos.length := by
  intro segs
  induction segs with
  | nil =>
    intro k t infos t' hrun
    rw [buildSpanInfos] at hrun
    injection hrun with hpair
    injection hpair with h1 h2
    subst h1
    subst h2
    exact ⟨rfl, by simp, by simp⟩
  | cons seg rest ih =>
    intro k t infos t' hrun
    rw [buildSpanInfos] at hrun
    cases hss : time_to_microseconds seg.start with
    | none => simp [hss] at hrun
    | some ss =>
      cases hes : time_to_microseconds seg.endT with
      | none => simp [hss, hes] at hrun
      | some es =>
        simp only [hss, hes, Option.pure_def, Option.bind_eq_bind,
          Option.some_bind] at hrun
        rw [Option.bind_eq_some] at hrun
        obtain ⟨x, hrec, hpure⟩ := hrun
        injection hpure with hpair
        injection hpair with h1 h2
        subst h1
        subst h2
        obtain ⟨hc, hfields, hidx⟩ := ih (k + 1) _ x.1 x.2 hrec
        refine ⟨⟨rfl, hc⟩, ?_, ?_⟩
        · intro i hi
          rcases List.mem_cons.1 hi with hi | hi
          · subst hi
            exact ⟨rfl, rfl, rfl, rfl, rfl⟩
          · exact hfields i hi
        · simp only [List.map_cons, List.length_cons, List.range']
          rw [hidx]

end DraftGen

namespace DraftGen

theorem buildSpanInfos_durs (sp : ℚ) (ap : MediaPath) (srt : Option MediaPath)
    (di tot : ℕ) :
    ∀ (segs : List SpanStr) (k : ℕ) (t : ℚ) (infos : List SegInfo) (t' : ℚ),
      buildSpanInfos sp ap srt di tot segs k t = some (infos, t') →
      spanDurations? segs = some (infos.map (fun i => i.source_duration)) := by
  intro segs
  induction segs with
  | nil =>
    intro k t infos t' hrun
    rw [buildSpanInfos] at hrun
    injection hrun with hpair
    injection hpair with h1 h2
    subst h1
    rfl
  | cons seg rest ih =>
    intro k t infos t' hrun
    rw [buildSpanInfos] at hrun
    cases hss : time_to_microseconds seg.start with
    | none => simp [hss] at hrun
    | some ss =>
      cases hes : time_to_microseconds seg.endT with
      | none => simp [hss, hes] at hrun
      | some es =>
        simp only [hss, hes, Option.pure_def, Option.bind_eq_bind,
          Option.some_bind] at hrun
        rw [Option.bind_eq_some] at hrun
        obtain ⟨x, hrec, hpure⟩ := hrun
        injection hpure with hpair
        injection hpair with h1 h2
        subst h1
        rw [spanDurations?, spanDuration?]
        simp only [hss, hes, Option.pure_def, Option.bind_eq_bind,
          Option.some_bind, ih (k + 1) _ x.1 x.2 hrec]
        rfl

theorem processDialogue_some_cases (gap : ℚ) (audioDur : MediaPath → ℚ)
    (d : StoryDialogue) (t0 : ℚ) (infos : List SegInfo) (t1 : ℚ)
    (hrun : processDialogue gap audioDur d t0 = some (infos, t1)) :
    (d.audio_path = none ∧ infos = [] ∧ t1 = t0) ∨
    (∃ ap durs, d.audio_path = some ap ∧
      spanDurations? d.video_segments = some durs ∧ durs.sum = 0 ∧
      infos = [] ∧ t1 = t0 + gap) ∨
    (∃ ap durs, d.audio_path = some ap ∧
      spanDurations? d.video_segments = some durs ∧ durs.sum ≠ 0 ∧
      buildSpanInfos (durs.sum / max (audioDur ap) (1 / 10)) ap d.srt_path
        d.index d.video_segments.length d.video_segments 0 (t0 + gap) =
        some (infos, t1)) := by
  rw [processDialogue] at hrun
  cases hap : d.audio_path with
  | none =>
    rw [hap] at hrun
    injection hrun with hpair
    injection hpair with h1 h2
    exact Or.inl ⟨rfl, h1.symm, h2.symm⟩
  | some ap =>
    rw [hap] at hrun
    cases hdurs : spanDurations? d.video_segments with
    | none => simp [hdurs] at hrun
    | some durs =>
      simp only [hdurs, Option.pure_def, Option.bind_eq_bind,
        Option.some_bind] at hrun
      by_cases hzero : durs.sum = 0
      · rw [if_pos hzero] at hrun
        injection hrun with hpair
        injection hpair with h1 h2
        exact Or.inr (Or.inl ⟨ap, durs, rfl, rfl, hzero, h1.symm, h2.symm⟩)
      · rw [if_neg hzero] at hrun
        exact Or.inr (Or.inr ⟨ap, durs, rfl, rfl, hzero, hrun⟩)

theorem processDialogue_contig (audioDur : MediaPath → ℚ) (d : StoryDialogue)
    (t0 : ℚ) (infos : List SegInfo) (t1 : ℚ)
    (hrun : processDialogue 0 audioDur d t0 = some (infos, t1)) :
    Contig t0 infos t1 := by
  rcases processDialogue_some_cases 0 audioDur d t0 infos t1 hrun with
    ⟨_, h1, h2⟩ | ⟨ap, durs, _, _, _, h1, h2⟩ | ⟨ap, durs, _, _, _, hb⟩
  · subst h1
    subst h2
    rfl
  · subst h1
    subst h2
    show t0 + 0 = t0
    ring
  · have := (buildSpanInfos_proj _ _ _ _ _ _ _ _ _ _ hb).1
    rwa [add_zero] at this

theorem buildSegInfos_contig (audioDur : MediaPath → ℚ) :
    ∀ (story : List StoryDialogue) (t0 : ℚ) (infos : List SegInfo) (t : ℚ),
      buildSegInfos 0 audioDur story t0 = some (infos, t) →
      Contig t0 infos t := by
  intro story
  induction story with
  | nil =>
    intro t0 infos t hrun
    rw [buildSegInfos] at hrun
    injection hrun with hpair
    injection hpair with h1 h2
    subst h1
    subst h2
    rfl
  | cons d rest ih =>
    intro t0 infos t hrun
    rw [buildSegInfos] at hrun
    cases hpd : processDialogue 0 audioDur d t0 with
    | none => simp [hpd] at hrun
    | some x =>
      simp only [hpd, Option.pure_def, Option.bind_eq_bind, Option.some_bind] at hrun
      cases hbs : buildSegInfos 0 audioDur rest x.2 with
      | none =>
        rw [show buildSegInfos 0 audioDur rest x.2 = none from hbs] at hrun
        simp at hrun
      | some y =>
        rw [show buildSegInfos 0 audioDur rest x.2 = some y from hbs] at hrun
        simp only [Option.some_bind] at hrun
        injection hrun with hpair
        injection hpair with h1 h2
        subst h1
        subst h2
        exact Contig_append (processDialogue_contig audioDur d t0 x.1 x.2 hpd)
          (ih x.2 y.1 y.2 hbs)

end DraftGen

namespace DraftGen

theorem filter_idx0_of_range (l : List SegInfo) (n : ℕ)
    (h : l.map (fun i => i.video_seg_idx) = List.range' 0 n) :
    (l.filter (fun i => i.video_seg_idx == 0)).length = min 1 n := by
  cases l with
  | nil =>
    have : n = 0 := by
      have := congrArg List.length h
      simpa [List.length_range'] using this.symm
    simp [this]
  | cons i rest =>
    have hlen : n = rest.length + 1 := by
      have := congrArg List.length h
      simp [List.length_range'] at this
      omega
    subst hlen
    rw [List.range'] at h
    simp only [List.map_cons, List.cons.injEq] at h
    obtain ⟨hi0, hrest⟩ := h
    have hrest0 : ∀ j ∈ rest, j.video_seg_idx ≠ 0 := by
      intro j hj
      have : j.video_seg_idx ∈ List.range' 1 rest.length := by
        rw [← hrest]
        exact List.mem_map_of_mem _ hj
      rw [List.mem_range'] at this
      omega
    rw [List.filter_cons]
    simp only [hi0, beq_self_eq_true, if_pos]
    have : rest.filter (fun i => i.video_seg_idx == 0) = [] := by
      rw [List.filter_eq_nil_iff]
      intro a ha
      simpa using hrest0 a ha
    simp [this]

end DraftGen

namespace DraftGen

theorem sum_map_div (l : List ℚ) (c : ℚ) :
    (l.map (fun x => x / c)).sum = l.sum / c := by
  induction l with
  | nil => simp
  | cons x rest ih => simp [ih, add_div]

theorem sum_pyInt_bounds (l : List ℚ) (hl : ∀ x ∈ l, 0 ≤ x) :
    l.sum * 1000000 - l.length ≤
      ((l.map (fun x => pyInt (x * 1000000))).sum : ℚ) ∧
    ((l.map (fun x => pyInt (x * 1000000))).sum : ℚ) ≤ l.sum * 1000000 := by
  induction l with
  | nil => simp
  | cons x rest ih =>
    have hx : 0 ≤ x := hl x (List.mem_cons_self x rest)
    have hrest := ih (fun y hy => hl y (List.mem_cons_of_mem x hy))
    have hfl : pyInt (x * 1000000) = ⌊x * 1000000⌋ :=
      pyInt_of_nonneg (by positivity)
    have hle : (⌊x * 1000000⌋ : ℚ) ≤ x * 1000000 := Int.floor_le _
    have hge : x * 1000000 - 1 < (⌊x * 1000000⌋ : ℚ) := Int.sub_one_lt_floor _
    simp only [List.map_cons, List.sum_cons, List.length_cons, hfl]
    rw [Int.cast_add, Nat.cast_add, Nat.cast_one]
    constructor
    · linarith [hrest.1]
    · linarith [hrest.2]

end DraftGen

namespace DraftGen

theorem phase2Step_video_segments_proj (vp : MediaPath) (ad : MediaPath → ℚ)
    (s : Phase2State) (info : SegInfo) :
    (phase2Step vp ad s info).video_segments.map
        (fun v => (v.source_timerange, v.target_timerange, v.speed)) =
      s.video_segments.map
        (fun v => (v.source_timerange, v.target_timerange, v.speed)) ++
      [(⟨pyInt (info.source_start * 1000000), pyInt (info.source_duration * 1000000)⟩,
        ⟨pyInt (info.target_start * 1000000), pyInt (info.adjusted_duration * 1000000)⟩,
        info.video_speed)] := by
  unfold phase2Step
  cases hf : s.apm.lookup info.audio_path <;>
    by_cases hidx : info.video_seg_idx = 0 <;>
    simp [hf, hidx]

theorem phase2Step_audio_segments_proj (vp : MediaPath) (ad : MediaPath → ℚ)
    (s : Phase2State) (info : SegInfo) :
    (phase2Step vp ad s info).audio_segments.map
        (fun a => (a.target_timerange.start, a.speed)) =
      s.audio_segments.map (fun a => (a.target_timerange.start, a.speed)) ++
      (if info.video_seg_idx = 0 then
        [(pyInt (info.target_start * 1000000), (1 : ℚ))] else []) := by
  unfold phase2Step
  cases hf : s.apm.lookup info.audio_path <;>
    by_cases hidx : info.video_seg_idx = 0 <;>
    simp [hf, hidx]

theorem phase2Step_video_materials_proj (vp : MediaPath) (ad : MediaPath → ℚ)
    (s : Phase2State) (info : SegInfo) :
    (phase2Step vp ad s info).video_materials.map (fun m => m.path) =
      s.video_materials.map (fun m => m.path) ++ [vp] := by
  unfold phase2Step
  cases hf : s.apm.lookup info.audio_path <;>
    by_cases hidx : info.video_seg_idx = 0 <;>
    simp [hf, hidx]

theorem lookup_none_not_mem (a : MediaPath) (l : List (MediaPath × ℕ))
    (h : List.lookup a l = none) : a ∉ l.map Prod.fst := by
  induction l with
  | nil => simp
  | cons kv rest ih =>
    rw [List.lookup] at h
    by_cases hk : a = kv.1
    · rw [show (a == kv.1) = true from beq_iff_eq.2 hk] at h
      exact Option.noConfusion h
    · rw [show (a == kv.1) = false from beq_eq_false_iff_ne.2 hk] at h
      simp only [List.map_cons, List.mem_cons]
      push_neg
      exact ⟨hk, fun hm => ih h hm⟩

theorem phase2Step_apm_inv (vp : MediaPath) (ad : MediaPath → ℚ)
    (s : Phase2State) (info : SegInfo)
    (h1 : s.audio_materials.map (fun m => m.path) = s.apm.map Prod.fst)
    (h2 : (s.apm.map Prod.fst).Nodup) :
    (phase2Step vp ad s info).audio_materials.map (fun m => m.path) =
      (phase2Step vp ad s info).apm.map Prod.fst ∧
    ((phase2Step vp ad s info).apm.map Prod.fst).Nodup := by
  unfold phase2Step
  cases hf : s.apm.lookup info.audio_path with
  | some aid =>
    by_cases hidx : info.video_seg_idx = 0 <;> simp [hf, hidx, h1, h2]
  | none =>
    have hnm := lookup_none_not_mem _ _ hf
    by_cases hidx : info.video_seg_idx = 0 <;>
      simp [hf, hidx, h1, h2, List.nodup_append, hnm]

theorem phase2_foldl_video_segments (vp : MediaPath) (ad : MediaPath → ℚ) :
    ∀ (infos : List SegInfo) (s : Phase2State),
      ((infos.foldl (phase2Step vp ad) s).video_segments).map
          (fun v => (v.source_timerange, v.target_timerange, v.speed)) =
        s.video_segments.map
          (fun v => (v.source_timerange, v.target_timerange, v.speed)) ++
        infos.map (fun i =>
          ((⟨pyInt (i.source_start * 1000000), pyInt (i.source_duration * 1000000)⟩ : TimeRange),
           (⟨pyInt (i.target_start * 1000000), pyInt (i.adjusted_duration * 1000000)⟩ : TimeRange),
           i.video_speed)) := by
  intro infos
  induction infos with
  | nil => intro s; simp
  | cons i rest ih =>
    intro s
    rw [List.foldl_cons, ih, phase2Step_video_segments_proj]
    simp

theorem phase2_foldl_audio_segments (vp : MediaPath) (ad : MediaPath → ℚ) :
    ∀ (infos : List SegInfo) (s : Phase2State),
      ((infos.foldl (phase2Step vp ad) s).audio_segments).map
          (fun a => (a.target_timerange.start, a.speed)) =
        s.audio_segments.map (fun a => (a.target_timerange.start, a.speed)) ++
        (infos.filter (fun i => i.video_seg_idx == 0)).map
          (fun i => (pyInt (i.target_start * 1000000), (1 : ℚ))) := by
  intro infos
  induction infos with
  | nil => intro s; simp
  | cons i rest ih =>
    intro s
    rw [List.foldl_cons, ih, phase2Step_audio_segments_proj, List.filter_cons]
    by_cases hidx : i.video_seg_idx = 0
    · simp [hidx]
    · simp [hidx]

theorem phase2_foldl_video_materials (vp : MediaPath) (ad : MediaPath → ℚ) :
    ∀ (infos : List SegInfo) (s : Phase2State),
      ((infos.foldl (phase2Step vp ad) s).video_materials).map (fun m => m.path) =
        s.video_materials.map (fun m => m.path) ++ infos.map (fun _ => vp) := by
  intro infos
  induction infos with
  | nil => intro s; simp
  | cons i rest ih =>
    intro s
    rw [List.foldl_cons, ih, phase2Step_video_materials_proj]
    simp

theorem phase2_foldl_apm_inv (vp : MediaPath) (ad : MediaPath → ℚ) :
    ∀ (infos : List SegInfo) (s : Phase2State),
      s.audio_materials.map (fun m => m.path) = s.apm.map Prod.fst →
      (s.apm.map Prod.fst).Nodup →
      ((infos.foldl (phase2Step vp ad) s).audio_materials).map (fun m => m.path) =
        ((infos.foldl (phase2Step vp ad) s).apm).map Prod.fst ∧
      (((infos.foldl (phase2Step vp ad) s).apm).map Prod.fst).Nodup := by
  intro infos
  induction infos with
  | nil => intro s h1 h2; exact ⟨h1, h2⟩
  | cons i rest ih =>
    intro s h1 h2
    rw [List.foldl_cons]
    obtain ⟨h1', h2'⟩ := phase2Step_apm_inv vp ad s i h1 h2
    exact ih (phase2Step vp ad s i) h1' h2'

theorem create_nested_fields (tmpls : List ContentObj)
    (track? : Option TrackTemplate) (gap : ℚ) (audioDur : MediaPath → ℚ)
    (srtE : MediaPath → Bool) (loadS : MediaPath → List SrtEntry)
    (story : List StoryDialogue) (vp : MediaPath) (tl : NestedDraft)
    (h : create_nested_draft_simple tmpls track? gap audioDur srtE loadS story vp =
      some tl) :
    ∃ infos t,
      buildSegInfos gap audioDur story 0 = some (infos, t) ∧
      tl.duration = pyInt (t * 1000000) ∧
      tl.video_materials =
        (infos.foldl (phase2Step vp audioDur) initPhase2).video_materials ∧
      tl.audio_materials =
        (infos.foldl (phase2Step vp audioDur) initPhase2).audio_materials ∧
      tl.video_segments =
        (infos.foldl (phase2Step vp audioDur) initPhase2).video_segments ∧
      tl.audio_segments =
        (infos.foldl (phase2Step vp audioDur) initPhase2).audio_segments ∧
      tl.subtitle_materials = (generate_subtitles tmpls track? srtE loadS infos
        (infos.foldl (phase2Step vp audioDur) initPhase2).counter).1 ∧
      tl.subtitle_segments = (generate_subtitles tmpls track? srtE loadS infos
        (infos.foldl (phase2Step vp audioDur) initPhase2).counter).2.1 ∧
      tl.subtitle_tracks = (generate_subtitles tmpls track? srtE loadS infos
        (infos.foldl (phase2Step vp audioDur) initPhase2).counter).2.2 := by
  rw [create_nested_draft_simple] at h
  cases hb : buildSegInfos gap audioDur story 0 with
  | none => simp [hb] at h
  | some x =>
    simp only [hb, Option.pure_def, Option.bind_eq_bind, Option.some_bind] at h
    injection h with h'
    subst h'
    exact ⟨x.1, x.2, by simp [hb], rfl, rfl, rfl, rfl, rfl, rfl, rfl, rfl⟩

end DraftGen

namespace DraftGen

theorem processEntries_texts (tmpl : ContentObj) (hasSeg : Bool) (ats : ℤ) :
    ∀ (entries : List SrtEntry) (c : ℕ),
      (processEntries tmpl hasSeg ats entries c).1.map (fun m => m.content.text) =
        (entries.map (fun e => clean_subtitle_text e.text)).filter
          (fun t => t ≠ []) := by
  intro entries
  induction entries with
  | nil => intro c; rfl
  | cons e rest ih =>
    intro c
    rw [processEntries]
    by_cases hct : clean_subtitle_text e.text = []
    · rw [if_pos hct]
      simp only [List.map_cons, List.filter_cons, hct]
      simp [ih c]
    · rw [if_neg hct]
      by_cases hs : hasSeg
      · subst hs
        simp only [if_pos rfl]
        cases hX : processEntries tmpl true ats rest (c + 2) with
        | mk ms p =>
          simp only [hX, List.map_cons, List.filter_cons]
          have := ih (c + 2)
          rw [hX] at this
          simp [hct, this]
      · rw [if_neg (by simpa using hs)]
        cases hX : processEntries tmpl hasSeg ats rest (c + 1) with
        | mk ms p =>
          simp only [hX, List.map_cons, List.filter_cons]
          have := ih (c + 1)
          rw [hX] at this
          simp [hct, this]

theorem processEntries_styles (tmpl : ContentObj) (hasSeg : Bool) (ats : ℤ) :
    ∀ (entries : List SrtEntry) (c : ℕ),
      ∀ m ∈ (processEntries tmpl hasSeg ats entries c).1,
        m.content.styles = tmpl.styles.map
          (Option.map (fun _ => ((0 : ℤ), (m.content.text.length : ℤ)))) := by
  intro entries
  induction entries with
  | nil => intro c m hm; exact absurd hm (by simp [processEntries])
  | cons e rest ih =>
    intro c m hm
    rw [processEntries] at hm
    by_cases hct : clean_subtitle_text e.text = []
    · rw [if_pos hct] at hm
      exact ih c m hm
    · rw [if_neg hct] at hm
      by_cases hs : hasSeg
      · subst hs
        rw [if_pos rfl] at hm
        cases hX : processEntries tmpl true ats rest (c + 2) with
        | mk ms p =>
          rw [hX] at hm
          rcases List.mem_cons.1 hm with hm | hm
          · subst hm; rfl
          · exact ih (c + 2) m (by rw [hX]; exact hm)
      · rw [if_neg (by simpa using hs)] at hm
        cases hX : processEntries tmpl hasSeg ats rest (c + 1) with
        | mk ms p =>
          rw [hX] at hm
          rcases List.mem_cons.1 hm with hm | hm
          · subst hm; rfl
          · exact ih (c + 1) m (by rw [hX]; exact hm)

theorem processEntries_segments (tmpl : ContentObj) (ats : ℤ) :
    ∀ (entries : List SrtEntry) (c : ℕ),
      (processEntries tmpl true ats entries c).2.1.map
          (fun s => s.target_timerange) =
        (entries.filter (fun e => clean_subtitle_text e.text ≠ [])).map
          (fun e => (⟨ats + srt_time_to_microseconds e.start,
            srt_time_to_microseconds e.endT - srt_time_to_microseconds e.start⟩ :
              TimeRange)) := by
  intro entries
  induction entries with
  | nil => intro c; rfl
  | cons e rest ih =>
    intro c
    rw [processEntries, List.filter_cons]
    by_cases hct : clean_subtitle_text e.text = []
    · rw [if_pos hct]
      simp only [hct]
      simp [ih c]
    · rw [if_neg hct]
      simp only [if_pos rfl]
      cases hX : processEntries tmpl true ats rest (c + 2) with
      | mk ms p =>
        have := ih (c + 2)
        rw [hX] at this
        simp [hct, this]

theorem generate_subtitles_segments_empty
    (tmpls : List ContentObj) (track? : Option TrackTemplate)
    (srtE : MediaPath → Bool) (loadS : MediaPath → List SrtEntry)
    (infos : List SegInfo) (c : ℕ) :
    (generate_subtitles tmpls track? srtE loadS infos c).2.1 = [] := by
  cases tmpls with
  | nil => cases track? <;> rfl
  | cons t0 trest =>
    cases track? with
    | none => rfl
    | some tt =>
      rw [generate_subtitles]

theorem generate_subtitles_take (t0 : ContentObj) (trest : List ContentObj)
    (tt : TrackTemplate) (srtE : MediaPath → Bool)
    (loadS : MediaPath → List SrtEntry) (infos : List SegInfo) (c : ℕ) :
    (generate_subtitles (t0 :: trest) (some tt) srtE loadS infos c).1 =
      (subtitleLoop (t0 :: trest) tt srtE loadS
        (infos.take (min DEBUG_SUBTITLE_LIMIT infos.length)) (c + 1)).1 := by
  rw [generate_subtitles]
  cases hX : subtitleLoop (t0 :: trest) tt srtE loadS
      (infos.take (min DEBUG_SUBTITLE_LIMIT infos.length)) (c + 1) with
  | mk ms p =>
    simp only [SUBTITLE_DEBUG_MODE, if_pos rfl]
    simp [hX]

end DraftGen

/-! ### Concrete evaluations shared by the synthesis claims -/

/-- `_clean_subtitle_text` keeps the cue text `"Hi"` unchanged. -/
theorem clean_Hi : DraftGen.clean_subtitle_text ['H', 'i'] = ['H', 'i'] := by
  decide

/-- `_clean_subtitle_text` keeps the cue text `"Yo"` unchanged. -/
theorem clean_Yo : DraftGen.clean_subtitle_text ['Y', 'o'] = ['Y', 'o'] := by
  decide

/-- Phase 1 on `soloDialogue` from time 0: one `SegInfo` at speed 1,
cursor ending at 1 s. -/
theorem solo_process_eval :
    DraftGen.processDialogue 0 Examples.soloAudioDur Examples.soloDialogue 0 =
      some ([Examples.soloInfo], 1) := by
  norm_num [DraftGen.processDialogue, DraftGen.spanDurations?, DraftGen.spanDuration?,
    DraftGen.buildSpanInfos, Examples.soloDialogue, Examples.soloAudioDur,
    Examples.soloInfo, Examples.ttm_t0s, Examples.ttm_t1s]

/-- Phase 1 on the whole `soloStory`. -/
theorem solo_phase1_eval :
    DraftGen.buildSegInfos 0 Examples.soloAudioDur Examples.soloStory 0 =
      some ([Examples.soloInfo], 1) := by
  norm_num [DraftGen.buildSegInfos, Examples.soloStory, solo_process_eval]

/-- The full synthesis on `soloStory` yields the concrete draft `soloTl`. -/
theorem solo_create_eval :
    DraftGen.create_nested_draft_simple [] none 0 Examples.soloAudioDur
      (fun _ => false) (fun _ => []) Examples.soloStory 5 = some Examples.soloTl := by
  norm_num [DraftGen.create_nested_draft_simple, solo_phase1_eval,
    DraftGen.generate_subtitles, DraftGen.phase2Step, DraftGen.initPhase2,
    List.lookup, Examples.soloAudioDur, Examples.soloInfo, Examples.soloTl, pyInt]

/-! ### C4: per-dialogue speed and duration sum -/

/-- C4 counterexample: on `truncStory` (spans of 1 ms, 2 ms and 4 ms with a
0.1 s voice-over) the synthesized video-segment target durations are
14285, 28571 and 57142 microseconds, summing to 99998, while the
voice-over audio duration is 100000 microseconds: the difference is
2 microseconds, so the spec's claimed bound of at most 1 microsecond of
rounding fails (each segment truncates separately). -/
theorem C4_counterexample :
    (DraftGen.create_nested_draft_simple [] none 0 Examples.truncAudioDur
        (fun _ => false) (fun _ => []) Examples.truncStory 5).map
      (fun tl => tl.video_segments.map (fun v => v.target_timerange.duration)) =
      some [14285, 28571, 57142] ∧
    pyInt (Examples.truncAudioDur 0 * 1000000) = 100000 ∧
    (14285 + 28571 + 57142 : ℤ) = 99998 ∧
    ¬ ((100000 - 99998 : ℤ) ≤ 1) := by
  refine ⟨?_, ?_, by norm_num, by norm_num⟩
  · norm_num [DraftGen.create_nested_draft_simple, DraftGen.buildSegInfos,
      DraftGen.processDialogue, DraftGen.spanDurations?, DraftGen.spanDuration?,
      DraftGen.buildSpanInfos, Examples.truncStory, Examples.truncAudioDur,
      Examples.ttm_t0s, Examples.ttm_t1ms, Examples.ttm_t3ms, Examples.ttm_t7ms,
      DraftGen.generate_subtitles, DraftGen.phase2Step, DraftGen.initPhase2,
      List.lookup, pyInt]
  · norm_num [Examples.truncAudioDur, pyInt]

/-- C4 (amended): for every dialogue placed on the timeline (voice-over
present, `processDialogue` succeeding with a non-empty info list, spans of
non-negative duration), every `segments_info` entry carries the shared
speed `total_span_duration / max(audio_duration, 0.1)` and the adjusted
duration `source_duration / video_speed`; the sum of the dialogue's
video-segment target durations in microseconds lies at most
`infos.length` microseconds below the effective audio duration
`max(audio_duration, 0.1) * 10^6` and never above it - but the spec's
claimed bound of ± 1 microsecond fails, because each segment's target
duration is truncated separately (see `C4_counterexample`, which loses
2 microseconds over three spans). -/
theorem C4_speed_and_duration_sum (gap : ℚ) (audioDur : MediaPath → ℚ) (d : StoryDialogue)
    (ap : MediaPath) (t0 t1 : ℚ) (infos : List DraftGen.SegInfo)
    (hap : d.audio_path = some ap)
    (hrun : DraftGen.processDialogue gap audioDur d t0 = some (infos, t1))
    (hne : infos ≠ [])
    (hpos : ∀ i ∈ infos, 0 ≤ i.source_duration) :
    (∀ i ∈ infos,
      i.video_speed =
        (infos.map (fun j => j.source_duration)).sum /
          max (audioDur ap) (1 / 10) ∧
      i.adjusted_duration = i.source_duration / i.video_speed) ∧
    max (audioDur ap) (1 / 10) * 1000000 - infos.length ≤
      ((infos.map (fun i => pyInt (i.adjusted_duration * 1000000))).sum : ℚ) ∧
    ((infos.map (fun i => pyInt (i.adjusted_duration * 1000000))).sum : ℚ) ≤
      max (audioDur ap) (1 / 10) * 1000000 := by
  rcases DraftGen.processDialogue_some_cases gap audioDur d t0 infos t1 hrun with
    ⟨h1, _, _⟩ | ⟨ap', durs, _, _, _, h1, _⟩ | ⟨ap', durs, hap', hdurs, hsum, hb⟩
  · rw [hap] at h1
    exact Option.noConfusion h1
  · exact absurd h1 hne
  · rw [hap] at hap'
    injection hap' with hap''
    subst hap''
    have hdurs2 := DraftGen.buildSpanInfos_durs _ _ _ _ _ _ _ _ _ _ hb
    rw [hdurs] at hdurs2
    injection hdurs2 with hdurs3
    subst hdurs3
    obtain ⟨hc, hfields, hidx⟩ := DraftGen.buildSpanInfos_proj _ _ _ _ _ _ _ _ _ _ hb
    set A := max (audioDur ap) (1 / 10) with hA
    set total := (infos.map (fun j => j.source_duration)).sum with htotal
    have hApos : (0 : ℚ) < A := lt_of_lt_of_le (by norm_num) (le_max_right _ _)
    have htnn : (0 : ℚ) ≤ total := by
      rw [htotal]
      apply List.sum_nonneg
      intro x hx
      rw [List.mem_map] at hx
      obtain ⟨i, hi, hxi⟩ := hx
      rw [← hxi]
      exact hpos i hi
    have htpos : (0 : ℚ) < total := lt_of_le_of_ne htnn (Ne.symm hsum)
    have hsp : (0 : ℚ) < total / A := div_pos htpos hApos
    refine ⟨?_, ?_⟩
    · intro i hi
      obtain ⟨hv, _, _, _, hadj⟩ := hfields i hi
      exact ⟨hv, by rw [hadj, ← hv]⟩
    · have hmapeq : infos.map (fun i => i.adjusted_duration) =
          (infos.map (fun j => j.source_duration)).map (fun x => x / (total / A)) := by
        rw [List.map_map]
        apply List.map_congr_left
        intro i hi
        obtain ⟨hv, _, _, _, hadj⟩ := hfields i hi
        simp only [Function.comp]
        rw [hadj]

      have hSumA : (infos.map (fun i => i.adjusted_duration)).sum = A := by
        rw [hmapeq, DraftGen.sum_map_div, ← htotal]
        rw [div_div_eq_mul_div]
        rw [mul_comm, mul_div_assoc, div_self (ne_of_gt htpos), mul_one]
      have hnn : ∀ x ∈ infos.map (fun i => i.adjusted_duration), 0 ≤ x := by
        intro x hx
        rw [List.mem_map] at hx
        obtain ⟨i, hi, hxi⟩ := hx
        obtain ⟨hv, _, _, _, hadj⟩ := hfields i hi
        rw [← hxi, hadj]
        exact div_nonneg (hpos i hi) (le_of_lt hsp)
      have hbd := DraftGen.sum_pyInt_bounds _ hnn
      rw [hSumA] at hbd
      rw [List.map_map] at hbd
      have hlen : (infos.map (fun i => i.adjusted_duration)).length = infos.length :=
        List.length_map _ _
      rw [hlen] at hbd
      exact hbd

/-- Witness for `C4_speed_and_duration_sum` at the concrete input
`soloDialogue`: the summed target durations of the single-span dialogue
lie within one microsecond-per-span of the 1 s voice-over. -/
theorem C4_witness :
    max (Examples.soloAudioDur 10) (1 / 10) * 1000000 -
        ([Examples.soloInfo] : List DraftGen.SegInfo).length ≤
      (([Examples.soloInfo].map
        (fun i => pyInt (i.adjusted_duration * 1000000))).sum : ℚ) ∧
    (([Examples.soloInfo].map
        (fun i => pyInt (i.adjusted_duration * 1000000))).sum : ℚ) ≤
      max (Examples.soloAudioDur 10) (1 / 10) * 1000000 :=
  (C4_speed_and_duration_sum 0 Examples.soloAudioDur Examples.soloDialogue 10 0 1
    [Examples.soloInfo]
    (by norm_num [Examples.soloDialogue]) solo_process_eval (by simp)
    (by intro i hi
        rw [List.mem_singleton] at hi
        subst hi
        norm_num [Examples.soloInfo])).2

/-! ### C5: contiguity of the target ranges and audio placement -/

/-- C5 counterexample: on `truncStory` the video segments' integer
microsecond target ranges are `(0, 14285)`, `(14285, 28571)` and
`(42857, 57142)`: the third segment starts at 42857 while the second ends
at `14285 + 28571 = 42856`, so in the emitted microsecond ranges the
claimed gap-free contiguity fails by one microsecond (contiguity holds
only for the exact pre-truncation times). -/
theorem C5_counterexample :
    (DraftGen.create_nested_draft_simple [] none 0 Examples.truncAudioDur
        (fun _ => false) (fun _ => []) Examples.truncStory 5).map
      (fun tl => tl.video_segments.map
        (fun v => (v.target_timerange.start, v.target_timerange.duration))) =
      some [(0, 14285), (14285, 28571), (42857, 57142)] ∧
    (42857 : ℤ) ≠ 14285 + 28571 := by
  refine ⟨?_, by norm_num⟩
  norm_num [DraftGen.create_nested_draft_simple, DraftGen.buildSegInfos,
    DraftGen.processDialogue, DraftGen.spanDurations?, DraftGen.spanDuration?,
    DraftGen.buildSpanInfos, Examples.truncStory, Examples.truncAudioDur,
    Examples.ttm_t0s, Examples.ttm_t1ms, Examples.ttm_t3ms, Examples.ttm_t7ms,
    DraftGen.generate_subtitles, DraftGen.phase2Step, DraftGen.initPhase2,
    List.lookup, pyInt]

/-- C5 (amended): in every synthesized timeline the `segments_info` target
times are contiguous and gap-free from 0 in exact (rational) seconds
(`Contig`); each video segment's source/target ranges and speed are the
microsecond truncations of its info entry in processing order; each
placed dialogue emits exactly one audio segment - on its first video span
only (`video_seg_idx = 0`) - whose target start is the microsecond
truncation of that first span's target start, at speed 1.  The claimed
contiguity fails for the truncated microsecond ranges themselves (see
`C5_counterexample`). -/
theorem C5_contiguity_and_audio_placement (tmpls : List DraftGen.ContentObj)
    (track? : Option DraftGen.TrackTemplate)
    (audioDur : MediaPath → ℚ) (srtE : MediaPath → Bool)
    (loadS : MediaPath → List DraftGen.SrtEntry) (story : List StoryDialogue)
    (vp : MediaPath) (tl : DraftGen.NestedDraft)
    (infos : List DraftGen.SegInfo) (t : ℚ)
    (hcreate : DraftGen.create_nested_draft_simple tmpls track? 0 audioDur srtE
      loadS story vp = some tl)
    (hphase : DraftGen.buildSegInfos 0 audioDur story 0 = some (infos, t)) :
    DraftGen.Contig 0 infos t ∧
    tl.video_segments.map
        (fun v => (v.source_timerange, v.target_timerange, v.speed)) =
      infos.map (fun i =>
        ((⟨pyInt (i.source_start * 1000000),
           pyInt (i.source_duration * 1000000)⟩ : DraftGen.TimeRange),
         (⟨pyInt (i.target_start * 1000000),
           pyInt (i.adjusted_duration * 1000000)⟩ : DraftGen.TimeRange),
         i.video_speed)) ∧
    tl.audio_segments.map (fun a => (a.target_timerange.start, a.speed)) =
      (infos.filter (fun i => i.video_seg_idx == 0)).map
        (fun i => (pyInt (i.target_start * 1000000), (1 : ℚ))) ∧
    (∀ (d : StoryDialogue) (t0 : ℚ) (infos2 : List DraftGen.SegInfo) (t1 : ℚ),
      DraftGen.processDialogue 0 audioDur d t0 = some (infos2, t1) →
      (infos2.filter (fun i => i.video_seg_idx == 0)).length =
        min 1 infos2.length) := by
  obtain ⟨infos0, t0v, hb, _, _, _, hvs, has, _, _, _⟩ :=
    DraftGen.create_nested_fields tmpls track? 0 audioDur srtE loadS story vp
      tl hcreate
  rw [hphase] at hb
  injection hb with hb2
  injection hb2 with hbl hbr
  subst hbl
  subst hbr
  refine ⟨DraftGen.buildSegInfos_contig audioDur story 0 infos t hphase, ?_, ?_, ?_⟩
  · rw [hvs, DraftGen.phase2_foldl_video_segments]
    simp [DraftGen.initPhase2]
  · rw [has, DraftGen.phase2_foldl_audio_segments]
    simp [DraftGen.initPhase2]
  · intro d t02 infos2 t1 hpd
    rcases DraftGen.processDialogue_some_cases 0 audioDur d t02 infos2 t1 hpd with
      ⟨_, h1, _⟩ | ⟨_, _, _, _, _, h1, _⟩ | ⟨ap, durs, _, _, _, hbb⟩
    · subst h1; rfl
    · subst h1; rfl
    · obtain ⟨_, _, hidx⟩ := DraftGen.buildSpanInfos_proj _ _ _ _ _ _ _ _ _ _ hbb
      exact DraftGen.filter_idx0_of_range infos2 infos2.length hidx

/-- Witness for `C5_contiguity_and_audio_placement` at `soloStory`:
contiguity of the single info entry and the projections of the concrete
timeline `soloTl`. -/
theorem C5_witness :
    DraftGen.Contig 0 [Examples.soloInfo] 1 ∧
    Examples.soloTl.video_segments.map
        (fun v => (v.source_timerange, v.target_timerange, v.speed)) =
      [Examples.soloInfo].map (fun i =>
        ((⟨pyInt (i.source_start * 1000000),
           pyInt (i.source_duration * 1000000)⟩ : DraftGen.TimeRange),
         (⟨pyInt (i.target_start * 1000000),
           pyInt (i.adjusted_duration * 1000000)⟩ : DraftGen.TimeRange),
         i.video_speed)) ∧
    Examples.soloTl.audio_segments.map
        (fun a => (a.target_timerange.start, a.speed)) =
      ([Examples.soloInfo].filter (fun i => i.video_seg_idx == 0)).map
        (fun i => (pyInt (i.target_start * 1000000), (1 : ℚ))) := by
  have h := C5_contiguity_and_audio_placement [] none Examples.soloAudioDur
    (fun _ => false) (fun _ => []) Examples.soloStory 5 Examples.soloTl
    [Examples.soloInfo] 1 solo_create_eval solo_phase1_eval
  exact ⟨h.1, h.2.1, h.2.2.1⟩

/-! ### C6: material registration -/

/-- C6 counterexample: on `truncStory` (one dialogue, three video spans,
all drawing on the same source file) the synthesized catalog holds three
video materials all with the same path: registration of the video path is
not idempotent - a fresh material is allocated per segment - so a
distinct media path does not appear exactly once among the video
materials. -/
theorem C6_counterexample :
    (DraftGen.create_nested_draft_simple [] none 0 Examples.truncAudioDur
        (fun _ => false) (fun _ => []) Examples.truncStory 5).map
      (fun tl => tl.video_materials.map (fun m => m.path)) = some [5, 5, 5] ∧
    ¬ ([5, 5, 5] : List MediaPath).Nodup := by
  refine ⟨?_, by decide⟩
  norm_num [DraftGen.create_nested_draft_simple, DraftGen.buildSegInfos,
    DraftGen.processDialogue, DraftGen.spanDurations?, DraftGen.spanDuration?,
    DraftGen.buildSpanInfos, Examples.truncStory, Examples.truncAudioDur,
    Examples.ttm_t0s, Examples.ttm_t1ms, Examples.ttm_t3ms, Examples.ttm_t7ms,
    DraftGen.generate_subtitles, DraftGen.phase2Step, DraftGen.initPhase2,
    List.lookup, pyInt]

/-- C6 (amended): in every synthesized timeline the audio-material
registration (the `audio_path_to_material_id` dict) is a true registry:
the audio materials carry pairwise distinct paths and two audio materials
with the same path have the same id; but the video materials are not
deduplicated - one fresh material is allocated per video segment, all
with the same shared source path (see `C6_counterexample`). -/
theorem C6_audio_dedup_video_duplication (tmpls : List DraftGen.ContentObj)
    (track? : Option DraftGen.TrackTemplate) (gap : ℚ)
    (audioDur : MediaPath → ℚ) (srtE : MediaPath → Bool)
    (loadS : MediaPath → List DraftGen.SrtEntry) (story : List StoryDialogue)
    (vp : MediaPath) (tl : DraftGen.NestedDraft)
    (hcreate : DraftGen.create_nested_draft_simple tmpls track? gap audioDur srtE
      loadS story vp = some tl) :
    (tl.audio_materials.map (fun m => m.path)).Nodup ∧
    (∀ m1 ∈ tl.audio_materials, ∀ m2 ∈ tl.audio_materials,
      m1.path = m2.path → m1.id = m2.id) ∧
    tl.video_materials.map (fun m => m.path) =
      tl.video_segments.map (fun _ => vp) := by
  obtain ⟨infos0, t0v, hb, _, hvm, ham, hvs, _, _, _, _⟩ :=
    DraftGen.create_nested_fields tmpls track? gap audioDur srtE loadS story vp
      tl hcreate
  have hinv := DraftGen.phase2_foldl_apm_inv vp audioDur infos0 DraftGen.initPhase2
    (by simp [DraftGen.initPhase2]) (by simp [DraftGen.initPhase2])
  have hnodup : (tl.audio_materials.map (fun m => m.path)).Nodup := by
    rw [ham, hinv.1]
    exact hinv.2
  refine ⟨hnodup, ?_, ?_⟩
  · intro m1 hm1 m2 hm2 hpath
    have := List.inj_on_of_nodup_map hnodup hm1 hm2 hpath
    rw [this]
  · have hlen : (List.foldl (DraftGen.phase2Step vp audioDur)
        DraftGen.initPhase2 infos0).video_segments.length = infos0.length := by
      have := congrArg List.length
        (DraftGen.phase2_foldl_video_segments vp audioDur infos0 DraftGen.initPhase2)
      simpa [DraftGen.initPhase2] using this
    rw [hvm, hvs, DraftGen.phase2_foldl_video_materials]
    simp only [DraftGen.initPhase2] at hlen
    simp [DraftGen.initPhase2, List.map_const', hlen]

/-- Witness for `C6_audio_dedup_video_duplication` at `soloStory`: the
concrete timeline's audio-material paths are duplicate-free and its
video-material paths equal one copy of the shared path per segment. -/
theorem C6_witness :
    (Examples.soloTl.audio_materials.map (fun m => m.path)).Nodup ∧
    Examples.soloTl.video_materials.map (fun m => m.path) =
      Examples.soloTl.video_segments.map (fun _ => (5 : MediaPath)) := by
  have h := C6_audio_dedup_video_duplication [] none 0 Examples.soloAudioDur
    (fun _ => false) (fun _ => []) Examples.soloStory 5 Examples.soloTl
    solo_create_eval
  exact ⟨h.1, h.2.2⟩

/-! ### C9: subtitle cue cleaning and emission -/

/-- C9 counterexample: on `twoCueStory` both dialogues have cue files and
cue texts that clean to non-empty strings, yet the synthesized timeline
holds a single subtitle material (for the first dialogue's `"Hi"` cue
only, because `SUBTITLE_DEBUG_MODE` with `DEBUG_SUBTITLE_LIMIT = 1`
truncates the processed infos) and zero subtitle segments (the function
returns the segments inside the track only): the claimed one material and
one segment per accepted cue fails. -/
theorem C9_counterexample :
    (DraftGen.create_nested_draft_simple [Examples.subtitleTmpl]
        (some Examples.subtitleTrackTmpl) 0 Examples.twoCueAudioDur
        (fun _ => true) Examples.twoCueLoadSrt Examples.twoCueStory 5).map
      (fun tl => (tl.subtitle_materials.map (fun m => m.content.text),
                  tl.subtitle_segments.length)) =
      some ([['H', 'i']], 0) ∧
    DraftGen.clean_subtitle_text ['H', 'i'] ≠ [] ∧
    DraftGen.clean_subtitle_text ['Y', 'o'] ≠ [] ∧
    Examples.twoCueStory.map (fun d => d.srt_path) = [some 20, some 21] := by
  refine ⟨?_, by rw [clean_Hi]; simp, by rw [clean_Yo]; simp,
    by simp [Examples.twoCueStory]⟩
  norm_num +decide [DraftGen.create_nested_draft_simple, DraftGen.buildSegInfos,
    DraftGen.processDialogue, DraftGen.spanDurations?, DraftGen.spanDuration?,
    DraftGen.buildSpanInfos, Examples.twoCueStory, Examples.twoCueAudioDur,
    Examples.twoCueLoadSrt, Examples.subtitleTmpl, Examples.subtitleTrackTmpl,
    Examples.ttm_t0s, Examples.ttm_t1s, Examples.ttm_t2s,
    DraftGen.generate_subtitles, DraftGen.subtitleLoop, DraftGen.processEntries,
    DraftGen.SUBTITLE_DEBUG_MODE, DraftGen.DEBUG_SUBTITLE_LIMIT,
    DraftGen.phase2Step, DraftGen.initPhase2, List.lookup, pyInt,
    clean_Hi, clean_Yo, DraftGen.srt_time_to_microseconds,
    Examples.stc_t0s, Examples.stc_t500ms]

/-- C9 (amended): for the cues that are processed, `_generate_subtitles`
behaves as specified per accepted cue: the emitted materials' texts are
exactly the cleaned cue texts with empty cleanings dropped; every
material's range-bearing styles are set to `[0, length of its cleaned
text]`; with a segment template present, the emitted segments' target
ranges are `{start: audio_target_start + cue_start, duration: cue_end -
cue_start}` over the accepted cues; and `"Hello, world!!"` cleans to
`"Hello world"` of length 11.  But the returned `subtitle_segments` list
is always empty (segments travel only inside the track), and only the
first `min(DEBUG_SUBTITLE_LIMIT, len(segments_info))` info entries are
processed because `SUBTITLE_DEBUG_MODE` is hard-coded `True` with
`DEBUG_SUBTITLE_LIMIT = 1` (see `C9_counterexample`). -/
theorem C9_cue_cleaning_and_emission (tmpl : DraftGen.ContentObj) (hasSeg : Bool) (ats : ℤ) :
    (∀ (entries : List DraftGen.SrtEntry) (c : ℕ),
      (DraftGen.processEntries tmpl hasSeg ats entries c).1.map
          (fun m => m.content.text) =
        (entries.map (fun e => DraftGen.clean_subtitle_text e.text)).filter
          (fun t => t ≠ [])) ∧
    (∀ (entries : List DraftGen.SrtEntry) (c : ℕ),
      ∀ m ∈ (DraftGen.processEntries tmpl hasSeg ats entries c).1,
        m.content.styles = tmpl.styles.map
          (Option.map (fun _ => ((0 : ℤ), (m.content.text.length : ℤ))))) ∧
    (∀ (entries : List DraftGen.SrtEntry) (c : ℕ),
      (DraftGen.processEntries tmpl true ats entries c).2.1.map
          (fun s => s.target_timerange) =
        (entries.filter (fun e => DraftGen.clean_subtitle_text e.text ≠ [])).map
          (fun e => (⟨ats + DraftGen.srt_time_to_microseconds e.start,
            DraftGen.srt_time_to_microseconds e.endT -
              DraftGen.srt_time_to_microseconds e.start⟩ : DraftGen.TimeRange))) ∧
    (∀ (tmpls : List DraftGen.ContentObj) (track? : Option DraftGen.TrackTemplate)
      (srtE : MediaPath → Bool) (loadS : MediaPath → List DraftGen.SrtEntry)
      (infos : List DraftGen.SegInfo) (c : ℕ),
      (DraftGen.generate_subtitles tmpls track? srtE loadS infos c).2.1 = []) ∧
    (∀ (t0 : DraftGen.ContentObj) (trest : List DraftGen.ContentObj)
      (tt : DraftGen.TrackTemplate) (srtE : MediaPath → Bool)
      (loadS : MediaPath → List DraftGen.SrtEntry)
      (infos : List DraftGen.SegInfo) (c : ℕ),
      (DraftGen.generate_subtitles (t0 :: trest) (some tt) srtE loadS infos c).1 =
        (DraftGen.subtitleLoop (t0 :: trest) tt srtE loadS
          (infos.take (min DraftGen.DEBUG_SUBTITLE_LIMIT infos.length)) (c + 1)).1) ∧
    DraftGen.clean_subtitle_text Examples.helloWorldRaw = Examples.helloWorldClean ∧
    Examples.helloWorldClean.length = 11 := by
  exact ⟨DraftGen.processEntries_texts tmpl hasSeg ats,
    DraftGen.processEntries_styles tmpl hasSeg ats,
    DraftGen.processEntries_segments tmpl ats,
    DraftGen.generate_subtitles_segments_empty,
    DraftGen.generate_subtitles_take,
    by decide, by decide⟩
